import Mathlib

/-!
Verification development for the `@handy-common-utils/aws-utils` library.

The definitions below are a shallow embedding of `src/aws-utils.ts`.
JavaScript objects are modelled field by field: a field can be absent,
present with the value `undefined`, or present with a value.  The two
pagination and retry engines of the `@handy-common-utils/promise-utils`
dependency (`PromiseUtils.repeat` and `PromiseUtils.withRetry`) are not part
of this repository; they are modelled from the specification (sections 4.1
and 4.3) and marked as such.
-/

namespace Aws

instance {e a : Type} [DecidableEq e] [DecidableEq a] : DecidableEq (Except e a) :=
  fun x y =>
    match x, y with
    | .ok v, .ok w =>
      if h : v = w then .isTrue (by rw [h]) else .isFalse (by intro hc; cases hc; exact h rfl)
    | .error v, .error w =>
      if h : v = w then .isTrue (by rw [h]) else .isFalse (by intro hc; cases hc; exact h rfl)
    | .ok _, .error _ => .isFalse (by intro hc; cases hc)
    | .error _, .ok _ => .isFalse (by intro hc; cases hc)

/-- State of one field of a JavaScript object: missing from the object,
present with the value `undefined`, or present with a real value.
The distinction between `absent` and `undef` matters because the shape
predicates use the JavaScript `in` operator, which tests presence only. -/
inductive JsField (α : Type) where
  | absent : JsField α
  | undef : JsField α
  | val : α → JsField α
deriving DecidableEq, Repr

/-- Whether the field is present on the object (the JavaScript `in` test). -/
def JsField.present {α : Type} : JsField α → Bool
  | .absent => false
  | .undef => true
  | .val _ => true

/-- The value obtained by reading the field: `none` models `undefined`
(read of an absent field also yields `undefined`). -/
def JsField.get {α : Type} : JsField α → Option α
  | .val a => some a
  | _ => none

/-- Whether the field holds a real value. -/
def JsField.isVal {α : Type} : JsField α → Bool
  | .val _ => true
  | _ => false

/-- The nested `$metadata` object of an AWS SDK v3 style error;
`httpStatusCode` is the only field the library reads. -/
structure JsMeta where
  httpStatusCode : JsField Int
deriving DecidableEq, Repr

/-- The nested `$retryable` object of an AWS SDK v3 style error. -/
structure JsRetryable where
  throttling : JsField Bool
deriving DecidableEq, Repr

/-- A JavaScript object thrown as an error, restricted to the fields the
library inspects.  `metadata` models the `$metadata` field and
`retryableV3` models the `$retryable` field. -/
structure AwsErrorObj where
  name : JsField String
  code : JsField String
  message : JsField String
  retryable : JsField Bool
  statusCode : JsField Int
  retryDelay : JsField Int
  metadata : JsField JsMeta
  retryableV3 : JsField JsRetryable
deriving DecidableEq, Repr

/-- An arbitrary JavaScript error value: either not a non-null object
(`prim` covers null, undefined, numbers, strings, ...) or an object. -/
inductive ErrVal where
  | prim : ErrVal
  | obj : AwsErrorObj → ErrVal
deriving DecidableEq, Repr

/-- Translated from `isPossibleAwsV2Error` (src/aws-utils.ts line 106):
`typeof error === 'object' && error != null && 'retryable' in error &&
'code' in error && 'message' in error`. -/
def isPossibleAwsV2Error : ErrVal → Bool
  | .prim => false
  | .obj e => e.retryable.present && e.code.present && e.message.present

/-- Translated from `isPossibleAwsV3Error` (src/aws-utils.ts line 116):
`typeof error === 'object' && error != null && '$metadata' in error &&
'message' in error`. -/
def isPossibleAwsV3Error : ErrVal → Bool
  | .prim => false
  | .obj e => e.metadata.present && e.message.present

/-- Translated from `isPossibleAwsError` (src/aws-utils.ts line 125). -/
def isPossibleAwsError (e : ErrVal) : Bool :=
  isPossibleAwsV3Error e || isPossibleAwsV2Error e

/-- Translated from `awsErrorStatusCode` (src/aws-utils.ts line 134):
`(error as PossibleAwsV3Error).$metadata.httpStatusCode ??
(error as PossibleAwsV2Error).statusCode`.
Reading `.httpStatusCode` when `$metadata` is not an object throws a
TypeError, modelled by `Except.error ()`; likewise for a non-object input. -/
def awsErrorStatusCode : ErrVal → Except Unit (Option Int)
  | .prim => .error ()
  | .obj e =>
    match e.metadata with
    | .val m =>
      .ok (match m.httpStatusCode.get with
           | some n => some n
           | none => e.statusCode.get)
    | _ => .error ()

/-- Translated from `awsErrorRetryable` (src/aws-utils.ts line 143):
`(error as PossibleAwsV3Error).$retryable?.throttling ??
(error as PossibleAwsV2Error).retryable ?? false`.
The optional chaining makes this total on objects. -/
def awsErrorRetryable (e : AwsErrorObj) : Bool :=
  match (match e.retryableV3 with
         | .val r => r.throttling.get
         | _ => none) with
  | some b => b
  | none =>
    match e.retryable.get with
    | some b => b
    | none => false

/-- Translated from `isPossibleAwsThrottlingError` (src/aws-utils.ts line 152):
`isPossibleAwsV3Error(error) && error.name === 'ThrottlingException' ||
isPossibleAwsV2Error(error) && error.code === 'ThrottlingException'`. -/
def isPossibleAwsThrottlingError : ErrVal → Bool
  | .prim => false
  | .obj o =>
    (isPossibleAwsV3Error (.obj o) && (o.name.get == some "ThrottlingException"))
    || (isPossibleAwsV2Error (.obj o) && (o.code.get == some "ThrottlingException"))

/-! ## Pagination -/

/-- JavaScript truthiness of the value read from a string-valued field:
absent and `undefined` are falsy, the empty string is falsy, every other
string is truthy.  The continuation tokens of every pagination convention
are modelled as strings read through this test. -/
def strTruthy : JsField String → Bool
  | .val s => s != ""
  | _ => false

/-- The value `response[itemsFieldName]` seen as a list of items:
a field holding an array yields its entries, any other field (absent,
`undefined`, or a non-array value, all rejected by `Array.isArray`)
yields no items. -/
def jsItems {α : Type} : JsField (List α) → List α
  | .val xs => xs
  | _ => []

/-- The page reducer shared by every fetchAll adapter of src/aws-utils.ts:
`const entries = response[itemsFieldName]; return Array.isArray(entries) ?
collection.concat(filterFunc ? entries.filter(filterFunc) : entries) :
collection`.  The `entries` argument is the value found at the items field;
`JsField.val` means the field holds an array. -/
def foldPage {α : Type} (filterFunc : Option (α → Bool)) (collection : List α)
    (entries : JsField (List α)) : List α :=
  match entries with
  | .val xs =>
    collection ++ (match filterFunc with
                   | some f => xs.filter f
                   | none => xs)
  | _ => collection

/-- Modelled from the spec: `PromiseUtils.repeat`, the repeat-until-exhausted
driver of the `@handy-common-utils/promise-utils` dependency, which is not
part of this repository.  Spec section 4.1: call the fetch function, reduce
the response into the accumulator, ask the derive-next-request function
whether to continue; when it returns no-more-work, return the accumulator.
The upstream source is modelled as the finite list of page responses it
would serve, in arrival order; the driver returns the final accumulator
together with the number of fetch calls it performed. -/
def promiseRepeat {ρ σ χ : Type} (nextRequest : ρ → Option σ) (reduce : χ → ρ → χ) :
    χ → List ρ → χ × Nat
  | acc, [] => (acc, 0)
  | acc, r :: rest =>
    match nextRequest r with
    | some _ =>
      match promiseRepeat nextRequest reduce (reduce acc r) rest with
      | (a, n) => (a, n + 1)
    | none => (reduce acc r, 1)

/-- Request shape `\x7b position?: P \x7d` of fetchAllByPosition. -/
structure PositionRequest where
  position : JsField String
deriving DecidableEq, Repr

/-- Response shape of fetchAllByPosition: the `position` continuation field
and the value at the caller-named items field. -/
structure PositionResponse (α : Type) where
  position : JsField String
  itemsFieldValue : JsField (List α)
deriving DecidableEq, Repr

/-- Translated from `AwsUtils.fetchAllByPosition` (src/aws-utils.ts line 228):
derive-next is `response => response.position ? \x7b position: response.position \x7d : null`,
the reducer is the shared page reducer. -/
def fetchAllByPosition {α : Type} (pages : List (PositionResponse α))
    (filterFunc : Option (α → Bool)) : List α × Nat :=
  promiseRepeat
    (fun response =>
      if strTruthy response.position then some (PositionRequest.mk response.position) else none)
    (fun collection response => foldPage filterFunc collection response.itemsFieldValue)
    [] pages

/-- Request shape `\x7b NextToken?: K \x7d` of fetchAllByNextToken. -/
structure NextTokenRequest where
  NextToken : JsField String
deriving DecidableEq, Repr

/-- Response shape of fetchAllByNextToken. -/
structure NextTokenResponse (α : Type) where
  NextToken : JsField String
  itemsFieldValue : JsField (List α)
deriving DecidableEq, Repr

/-- Translated from `AwsUtils.fetchAllByNextToken` (src/aws-utils.ts line 264):
derive-next is `response => response.NextToken ? \x7b NextToken: response.NextToken \x7d : null`. -/
def fetchAllByNextToken {α : Type} (pages : List (NextTokenResponse α))
    (filterFunc : Option (α → Bool)) : List α × Nat :=
  promiseRepeat
    (fun response =>
      if strTruthy response.NextToken then some (NextTokenRequest.mk response.NextToken) else none)
    (fun collection response => foldPage filterFunc collection response.itemsFieldValue)
    [] pages

/-- Request shape `\x7b nextToken?: K \x7d` of fetchAllByNextTokenV3. -/
structure NextTokenV3Request where
  nextToken : JsField String
deriving DecidableEq, Repr

/-- Response shape of fetchAllByNextTokenV3. -/
structure NextTokenV3Response (α : Type) where
  nextToken : JsField String
  itemsFieldValue : JsField (List α)
deriving DecidableEq, Repr

/-- Translated from `AwsUtils.fetchAllByNextTokenV3` (src/aws-utils.ts line 355):
derive-next is `response => response.nextToken ? \x7b nextToken: response.nextToken \x7d : null`. -/
def fetchAllByNextTokenV3 {α : Type} (pages : List (NextTokenV3Response α))
    (filterFunc : Option (α → Bool)) : List α × Nat :=
  promiseRepeat
    (fun response =>
      if strTruthy response.nextToken then some (NextTokenV3Request.mk response.nextToken) else none)
    (fun collection response => foldPage filterFunc collection response.itemsFieldValue)
    [] pages

/-- Request shape `\x7b Marker?: M \x7d` of fetchAllByMarker. -/
structure MarkerRequest where
  Marker : JsField String
deriving DecidableEq, Repr

/-- Response shape of fetchAllByMarker: the response carries `NextMarker`. -/
structure MarkerResponse (α : Type) where
  NextMarker : JsField String
  itemsFieldValue : JsField (List α)
deriving DecidableEq, Repr

/-- Translated from `AwsUtils.fetchAllByMarker` (src/aws-utils.ts line 390):
derive-next is `response => response.NextMarker ? \x7b Marker: response.NextMarker \x7d : null`. -/
def fetchAllByMarker {α : Type} (pages : List (MarkerResponse α))
    (filterFunc : Option (α → Bool)) : List α × Nat :=
  promiseRepeat
    (fun response =>
      if strTruthy response.NextMarker then some (MarkerRequest.mk response.NextMarker) else none)
    (fun collection response => foldPage filterFunc collection response.itemsFieldValue)
    [] pages

/-- Request shape `\x7b ContinuationToken?: M \x7d` of fetchAllByContinuationToken. -/
structure ContinuationTokenRequest where
  ContinuationToken : JsField String
deriving DecidableEq, Repr

/-- Response shape of fetchAllByContinuationToken. -/
structure ContinuationTokenResponse (α : Type) where
  NextContinuationToken : JsField String
  itemsFieldValue : JsField (List α)
deriving DecidableEq, Repr

/-- Translated from `AwsUtils.fetchAllByContinuationToken` (src/aws-utils.ts line 423):
derive-next is `response => response.NextContinuationToken ?
\x7b ContinuationToken: response.NextContinuationToken \x7d : null`. -/
def fetchAllByContinuationToken {α : Type} (pages : List (ContinuationTokenResponse α))
    (filterFunc : Option (α → Bool)) : List α × Nat :=
  promiseRepeat
    (fun response =>
      if strTruthy response.NextContinuationToken then
        some (ContinuationTokenRequest.mk response.NextContinuationToken)
      else none)
    (fun collection response => foldPage filterFunc collection response.itemsFieldValue)
    [] pages

/-- Request shape `\x7b ExclusiveStartKey?: K \x7d` of fetchAllByExclusiveStartKey. -/
structure ExclusiveStartKeyRequest where
  ExclusiveStartKey : JsField String
deriving DecidableEq, Repr

/-- Response shape of fetchAllByExclusiveStartKey: the response carries
`LastEvaluatedKey`.  The key is modelled as a string token; the walk only
ever tests its JavaScript truthiness. -/
structure ExclusiveStartKeyResponse (α : Type) where
  LastEvaluatedKey : JsField String
  itemsFieldValue : JsField (List α)
deriving DecidableEq, Repr

/-- Translated from `AwsUtils.fetchAllByExclusiveStartKey` (src/aws-utils.ts line 458):
derive-next is `response => response.LastEvaluatedKey ?
\x7b ExclusiveStartKey: response.LastEvaluatedKey \x7d : null`. -/
def fetchAllByExclusiveStartKey {α : Type} (pages : List (ExclusiveStartKeyResponse α))
    (filterFunc : Option (α → Bool)) : List α × Nat :=
  promiseRepeat
    (fun response =>
      if strTruthy response.LastEvaluatedKey then
        some (ExclusiveStartKeyRequest.mk response.LastEvaluatedKey)
      else none)
    (fun collection response => foldPage filterFunc collection response.itemsFieldValue)
    [] pages

/-- Request shape of fetchAllWithPagination: the caller-named pagination field. -/
structure GenericRequest where
  paginationFieldValue : JsField String
deriving DecidableEq, Repr

/-- Response shape of fetchAllWithPagination: the value at the caller-named
pagination field and the value at the caller-named items field. -/
structure GenericResponse (α : Type) where
  paginationFieldValue : JsField String
  itemsFieldValue : JsField (List α)
deriving DecidableEq, Repr

/-- The guard `!shouldFetchNextPage || shouldFetchNextPage(response)` of
fetchAllWithPagination: true when no predicate was supplied, otherwise the
value of the predicate on the response. -/
def shouldFetchOk {α : Type} (shouldFetchNextPage : Option (GenericResponse α → Bool))
    (response : GenericResponse α) : Bool :=
  match shouldFetchNextPage with
  | none => true
  | some p => p response

/-- Translated from `AwsUtils.fetchAllWithPagination` (src/aws-utils.ts line 313):
derive-next is `response => (!shouldFetchNextPage || shouldFetchNextPage(response)) ?
(response[paginationFieldName] ? \x7b [paginationFieldName]: response[paginationFieldName] \x7d
: null) : null`. -/
def fetchAllWithPagination {α : Type} (pages : List (GenericResponse α))
    (shouldFetchNextPage : Option (GenericResponse α → Bool))
    (filterFunc : Option (α → Bool)) : List α × Nat :=
  promiseRepeat
    (fun response =>
      if shouldFetchOk shouldFetchNextPage response then
        (if strTruthy response.paginationFieldValue then
           some (GenericRequest.mk response.paginationFieldValue)
         else none)
      else none)
    (fun collection response => foldPage filterFunc collection response.itemsFieldValue)
    [] pages

/-! ## Retry -/

/-- Outcome of a retry-driven execution: success, the most recent operation
error propagated unchanged, an exception escaping the retry-decision
closures (a TypeError thrown while classifying the error), or exhaustion of
the fuel that bounds this model of the recursion. -/
inductive RetryOutcome (R E : Type) where
  | ok : R → RetryOutcome R E
  | err : E → RetryOutcome R E
  | exn : RetryOutcome R E
  | fuelOut : RetryOutcome R E
deriving DecidableEq, Repr

/-- Modelled from the spec: `PromiseUtils.withRetry`, the retry driver of the
`@handy-common-utils/promise-utils` dependency, which is not part of this
repository.  Spec section 4.3: invoke the operation (attempt numbers are
1-based); on success return immediately; on failure consult the shouldRetry
predicate (an exception escaping it rejects the whole call), then the delay
closure: an absent or negative delay means no further attempts and the most
recent error propagates unchanged, otherwise wait the computed delay and
retry with the incremented attempt number.  The result carries the number
of operation invocations and the list of waits performed, in order.  The
fuel argument bounds the recursion depth of the model; every theorem below
supplies enough fuel for the execution it describes. -/
def promiseWithRetry {R E : Type} (operation : Nat → Except E R)
    (delayOf : Nat → E → Option Int) (shouldRetry : E → Except Unit Bool) :
    Nat → Nat → RetryOutcome R E × Nat × List Int
  | fuel, attempt =>
    match operation attempt with
    | .ok r => (.ok r, 1, [])
    | .error e =>
      match shouldRetry e with
      | .error _ => (.exn, 1, [])
      | .ok false => (.err e, 1, [])
      | .ok true =>
        match delayOf attempt e with
        | none => (.err e, 1, [])
        | some d =>
          if d < 0 then (.err e, 1, [])
          else
            match fuel with
            | 0 => (.fuelOut, 1, [])
            | f + 1 =>
              match promiseWithRetry operation delayOf shouldRetry f (attempt + 1) with
              | (o, n, ws) => (o, n + 1, d :: ws)

/-- The backoff argument of `AwsUtils.withRetry`: an array of millisecond
periods or a function of the attempt number, the previous result and the
previous error. -/
inductive Backoff (R : Type) where
  | arr : List Int → Backoff R
  | fn : (Nat → Option R → Option ErrVal → Option Int) → Backoff R

/-- The default backoff array of `AwsUtils.withRetry` (src/aws-utils.ts line 501). -/
def defaultBackoff : List Int := [500, 1000, 1500, 3000, 5000, 8000]

/-- The statusCodes argument of `AwsUtils.withRetry`: omitted or undefined,
an explicit null, or an explicit array whose entries may be undefined. -/
inductive StatusCodesArg where
  | unspecified : StatusCodesArg
  | nullArg : StatusCodesArg
  | arr : List (Option Int) → StatusCodesArg
deriving DecidableEq, Repr

/-- Resolution of the statusCodes parameter default
(src/aws-utils.ts line 502: `statusCodes ... = [429]`): an omitted or
undefined argument becomes the array `[429]`, null stays null. -/
def resolveStatusCodes : StatusCodesArg → Option (List (Option Int))
  | .unspecified => some [some 429]
  | .nullArg => none
  | .arr codes => some codes

/-- Translated from the retriable-delay closure of `AwsUtils.withRetry`
(src/aws-utils.ts lines 503-510):
`const backoffMs = Array.isArray(backoff) ? backoff[attempt - 1] :
backoff(attempt, previousResult, previousError);
const awsRetryDelaySec = isPossibleAwsV2Error(previousError) ?
previousError.retryDelay : null;
if (backoffMs == null || backoffMs < 0 || awsRetryDelaySec == null)
return backoffMs;
const awsRetryDelayMs = awsRetryDelaySec * 1000;
return awsRetryDelayMs > backoffMs ? awsRetryDelayMs : backoffMs`.
The local constant `awsRetryDelaySec` of the closure is split out as its own
definition below. -/
def awsRetryDelaySec (previousError : Option ErrVal) : Option Int :=
  match previousError with
  | some (.obj o) =>
    if isPossibleAwsV2Error (.obj o) then o.retryDelay.get else none
  | _ => none

def awsBackoffDelay {R : Type} (backoff : Backoff R) (attempt : Nat)
    (previousResult : Option R) (previousError : Option ErrVal) : Option Int :=
  let backoffMs : Option Int :=
    match backoff with
    | .arr xs => xs[attempt - 1]?
    | .fn f => f attempt previousResult previousError
  match backoffMs, awsRetryDelaySec previousError with
  | none, _ => none
  | some b, none => some b
  | some b, some dSec =>
    if b < 0 then some b
    else some (if dSec * 1000 > b then dSec * 1000 else b)

/-- Translated from the shouldRetry closure of `AwsUtils.withRetry`
(src/aws-utils.ts lines 511-518):
`if (!isPossibleAwsError(previousError)) return false;
const isRetryable = awsErrorRetryable(previousError) ||
isPossibleAwsThrottlingError(previousError);
const statusCode = awsErrorStatusCode(previousError);
return isRetryable === true && (statusCodes == null ||
statusCodes.includes(statusCode))`.
The status code is computed before the return, so the TypeError that
`awsErrorStatusCode` throws for an error without a `$metadata` object
escapes the closure; this is modelled by `Except.error ()`. -/
def awsShouldRetry (statusCodes : StatusCodesArg) (previousError : Option ErrVal) :
    Except Unit Bool :=
  match previousError with
  | none => .ok false
  | some e =>
    if !(isPossibleAwsError e) then .ok false
    else
      let isRetryable :=
        (match e with
         | .obj o => awsErrorRetryable o
         | .prim => false) || isPossibleAwsThrottlingError e
      match awsErrorStatusCode e with
      | .error _ => .error ()
      | .ok statusCode =>
        .ok (isRetryable && (match resolveStatusCodes statusCodes with
                             | none => true
                             | some codes => codes.contains statusCode))

/-- Translated from `AwsUtils.withRetry` (src/aws-utils.ts lines 499-519),
driven by the spec-modelled retry engine.  The operation is modelled as a
function of the attempt number (its previousResult argument is always
undefined, because the engine returns as soon as an attempt succeeds, and
its previousError argument is determined by the preceding failure of the
same fixed operation). -/
def withRetry {R : Type} (operation : Nat → Except ErrVal R) (backoff : Backoff R)
    (statusCodes : StatusCodesArg) (fuel : Nat) : RetryOutcome R ErrVal × Nat × List Int :=
  promiseWithRetry operation
    (fun attempt e => awsBackoffDelay backoff attempt none (some e))
    (fun e => awsShouldRetry statusCodes (some e))
    fuel 1

/-! ## Concrete example errors used as inputs of theorems -/

/-- A Shape B (SDK v3) style throttling error with HTTP status 429. -/
def exThrottling429 : AwsErrorObj :=
  { name := JsField.val "ThrottlingException", code := JsField.absent,
    message := JsField.val "Rate exceeded", retryable := JsField.absent,
    statusCode := JsField.absent, retryDelay := JsField.absent,
    metadata := JsField.val { httpStatusCode := JsField.val 429 },
    retryableV3 := JsField.absent }

/-- The SDK v3 throttling error with HTTP status 400 exercised by the
repository test suite (test/aws-utils.spec.ts). -/
def exThrottling400 : AwsErrorObj :=
  { name := JsField.val "ThrottlingException", code := JsField.absent,
    message := JsField.val "Rate exceeded", retryable := JsField.absent,
    statusCode := JsField.absent, retryDelay := JsField.absent,
    metadata := JsField.val { httpStatusCode := JsField.val 400 },
    retryableV3 := JsField.absent }

/-- A pure Shape A (SDK v2) retryable error with direct status code 429 and
no nested metadata object. -/
def exPureV2Retryable429 : AwsErrorObj :=
  { name := JsField.absent, code := JsField.val "Throttling",
    message := JsField.val "Rate exceeded", retryable := JsField.val true,
    statusCode := JsField.val 429, retryDelay := JsField.absent,
    metadata := JsField.absent, retryableV3 := JsField.absent }

/-- A pure Shape A (SDK v2) retryable error with direct status code 400 and
no nested metadata object. -/
def exPureV2Status400 : AwsErrorObj :=
  { name := JsField.absent, code := JsField.val "SomeError",
    message := JsField.val "some message", retryable := JsField.val true,
    statusCode := JsField.val 400, retryDelay := JsField.absent,
    metadata := JsField.absent, retryableV3 := JsField.absent }

/-- An error exhibiting both shapes: Shape A fields including a
server-advised retryDelay of 2 seconds, plus a Shape B metadata object
carrying HTTP status 429. -/
def exDualShape429 : AwsErrorObj :=
  { name := JsField.absent, code := JsField.val "Throttling",
    message := JsField.val "Rate exceeded", retryable := JsField.val true,
    statusCode := JsField.absent, retryDelay := JsField.val 2,
    metadata := JsField.val { httpStatusCode := JsField.val 429 },
    retryableV3 := JsField.absent }

/-! ## Concrete sample pages used as inputs of theorems -/

def pgPosition : PositionResponse Nat :=
  { position := JsField.val "t", itemsFieldValue := JsField.val [1, 2] }

def lastPosition : PositionResponse Nat :=
  { position := JsField.absent, itemsFieldValue := JsField.val [3] }

def noItemsPosition : PositionResponse Nat :=
  { position := JsField.val "t", itemsFieldValue := JsField.undef }

def emptyTokPosition : PositionResponse Nat :=
  { position := JsField.val "", itemsFieldValue := JsField.val [9] }

def pgNextToken : NextTokenResponse Nat :=
  { NextToken := JsField.val "t", itemsFieldValue := JsField.val [1, 2] }

def lastNextToken : NextTokenResponse Nat :=
  { NextToken := JsField.absent, itemsFieldValue := JsField.val [3] }

def noItemsNextToken : NextTokenResponse Nat :=
  { NextToken := JsField.val "t", itemsFieldValue := JsField.undef }

def emptyTokNextToken : NextTokenResponse Nat :=
  { NextToken := JsField.val "", itemsFieldValue := JsField.val [9] }

def pgNextTokenV3 : NextTokenV3Response Nat :=
  { nextToken := JsField.val "t", itemsFieldValue := JsField.val [1, 2] }

def lastNextTokenV3 : NextTokenV3Response Nat :=
  { nextToken := JsField.absent, itemsFieldValue := JsField.val [3] }

def noItemsNextTokenV3 : NextTokenV3Response Nat :=
  { nextToken := JsField.val "t", itemsFieldValue := JsField.undef }

def emptyTokNextTokenV3 : NextTokenV3Response Nat :=
  { nextToken := JsField.val "", itemsFieldValue := JsField.val [9] }

def pgMarker : MarkerResponse Nat :=
  { NextMarker := JsField.val "t", itemsFieldValue := JsField.val [1, 2] }

def lastMarker : MarkerResponse Nat :=
  { NextMarker := JsField.absent, itemsFieldValue := JsField.val [3] }

def noItemsMarker : MarkerResponse Nat :=
  { NextMarker := JsField.val "t", itemsFieldValue := JsField.undef }

def emptyTokMarker : MarkerResponse Nat :=
  { NextMarker := JsField.val "", itemsFieldValue := JsField.val [9] }

def pgContinuationToken : ContinuationTokenResponse Nat :=
  { NextContinuationToken := JsField.val "t", itemsFieldValue := JsField.val [1, 2] }

def lastContinuationToken : ContinuationTokenResponse Nat :=
  { NextContinuationToken := JsField.absent, itemsFieldValue := JsField.val [3] }

def noItemsContinuationToken : ContinuationTokenResponse Nat :=
  { NextContinuationToken := JsField.val "t", itemsFieldValue := JsField.undef }

def emptyTokContinuationToken : ContinuationTokenResponse Nat :=
  { NextContinuationToken := JsField.val "", itemsFieldValue := JsField.val [9] }

def pgExclusiveStartKey : ExclusiveStartKeyResponse Nat :=
  { LastEvaluatedKey := JsField.val "t", itemsFieldValue := JsField.val [1, 2] }

def lastExclusiveStartKey : ExclusiveStartKeyResponse Nat :=
  { LastEvaluatedKey := JsField.absent, itemsFieldValue := JsField.val [3] }

def noItemsExclusiveStartKey : ExclusiveStartKeyResponse Nat :=
  { LastEvaluatedKey := JsField.val "t", itemsFieldValue := JsField.undef }

def emptyTokExclusiveStartKey : ExclusiveStartKeyResponse Nat :=
  { LastEvaluatedKey := JsField.val "", itemsFieldValue := JsField.val [9] }

def pgGeneric : GenericResponse Nat :=
  { paginationFieldValue := JsField.val "t", itemsFieldValue := JsField.val [1, 2] }

def lastGeneric : GenericResponse Nat :=
  { paginationFieldValue := JsField.absent, itemsFieldValue := JsField.val [3] }

def noItemsGeneric : GenericResponse Nat :=
  { paginationFieldValue := JsField.val "t", itemsFieldValue := JsField.undef }

def emptyTokGeneric : GenericResponse Nat :=
  { paginationFieldValue := JsField.val "", itemsFieldValue := JsField.val [9] }

/-! ## Generic lemmas about the pagination driver -/

theorem promiseRepeat_nil {ρ σ χ : Type} (nr : ρ → Option σ) (red : χ → ρ → χ) (acc : χ) :
    promiseRepeat nr red acc [] = (acc, 0) := rfl

theorem promiseRepeat_cons_some {ρ σ χ : Type} (nr : ρ → Option σ) (red : χ → ρ → χ)
    (acc : χ) (r : ρ) (rest : List ρ) (t : σ) (h : nr r = some t) :
    promiseRepeat nr red acc (r :: rest) =
      ((promiseRepeat nr red (red acc r) rest).1,
       (promiseRepeat nr red (red acc r) rest).2 + 1) := by
  simp [promiseRepeat, h]

theorem promiseRepeat_cons_none {ρ σ χ : Type} (nr : ρ → Option σ) (red : χ → ρ → χ)
    (acc : χ) (r : ρ) (rest : List ρ) (h : nr r = none) :
    promiseRepeat nr red acc (r :: rest) = (red acc r, 1) := by
  simp [promiseRepeat, h]

/-- When every page of `front` yields a next request and `stop` does not, the
driver consumes exactly the pages up to and including `stop`, never touching
`rest`, and performs `front.length + 1` fetches. -/
theorem promiseRepeat_stopAt {ρ σ χ : Type} (nr : ρ → Option σ) (red : χ → ρ → χ)
    (front : List ρ) (stop : ρ) (rest : List ρ) (acc : χ)
    (hfront : ∀ r ∈ front, (nr r).isSome = true) (hstop : nr stop = none) :
    promiseRepeat nr red acc (front ++ stop :: rest) =
      (List.foldl red acc (front ++ [stop]), front.length + 1) := by
  induction front generalizing acc with
  | nil =>
    simp [promiseRepeat_cons_none nr red acc stop rest hstop]
  | cons r fr ih =>
    have hr : (nr r).isSome = true := hfront r (by simp)
    obtain ⟨t, ht⟩ := Option.isSome_iff_exists.mp hr
    have hfr : ∀ q ∈ fr, (nr q).isSome = true := fun q hq => hfront q (by simp [hq])
    simp only [List.cons_append,
      promiseRepeat_cons_some nr red acc r (fr ++ stop :: rest) t ht,
      ih (red acc r) hfr, List.foldl_cons, List.length_cons]

/-- The reducer without a filter always appends the items of the page. -/
theorem foldPage_none_eq {α : Type} (c : List α) (e : JsField (List α)) :
    foldPage none c e = c ++ jsItems e := by
  cases e <;> simp [foldPage, jsItems]

/-- Folding the filterless reducer over a list of pages concatenates the
items of the pages, in order. -/
theorem foldl_foldPage_none {α ρ : Type} (itemsOf : ρ → JsField (List α))
    (ps : List ρ) (acc : List α) :
    List.foldl (fun c r => foldPage none c (itemsOf r)) acc ps =
      acc ++ (ps.map (fun r => jsItems (itemsOf r))).flatten := by
  induction ps generalizing acc with
  | nil => simp
  | cons r rest ih =>
    rw [List.foldl_cons, foldPage_none_eq, ih]
    simp [List.append_assoc]

/-- The reducer with a filter applied to an already-filtered collection
computes the filtered image of the unfiltered reducer. -/
theorem foldPage_filter_eq {α : Type} (f : α → Bool) (c : List α) (e : JsField (List α)) :
    foldPage (some f) (c.filter f) e = (foldPage none c e).filter f := by
  cases e <;> simp [foldPage, List.filter_append]

/-- Running the driver with the filtering reducer yields the filtered image
of the unfiltered run: same fetch count, filtered accumulator. -/
theorem promiseRepeat_filter {α ρ σ : Type} (nr : ρ → Option σ)
    (itemsOf : ρ → JsField (List α)) (f : α → Bool) (ps : List ρ) (acc : List α) :
    promiseRepeat nr (fun c r => foldPage (some f) c (itemsOf r)) (acc.filter f) ps =
      (((promiseRepeat nr (fun c r => foldPage none c (itemsOf r)) acc ps).1).filter f,
       (promiseRepeat nr (fun c r => foldPage none c (itemsOf r)) acc ps).2) := by
  induction ps generalizing acc with
  | nil => simp [promiseRepeat_nil]
  | cons r rest ih =>
    cases ht : nr r with
    | some t =>
      rw [promiseRepeat_cons_some nr _ _ r rest t ht,
          promiseRepeat_cons_some nr _ _ r rest t ht]
      rw [foldPage_filter_eq, ih (foldPage none acc (itemsOf r))]
    | none =>
      rw [promiseRepeat_cons_none nr _ _ r rest ht,
          promiseRepeat_cons_none nr _ _ r rest ht]
      rw [foldPage_filter_eq]

/-- Replacing one page by another page on which the derive-next function and
the reducer agree does not change the run. -/
theorem promiseRepeat_congrPage {ρ σ χ : Type} (nr : ρ → Option σ) (red : χ → ρ → χ)
    (p q : ρ) (hnr : nr p = nr q) (hred : ∀ c, red c p = red c q)
    (front rest : List ρ) (acc : χ) :
    promiseRepeat nr red acc (front ++ p :: rest) =
      promiseRepeat nr red acc (front ++ q :: rest) := by
  induction front generalizing acc with
  | nil =>
    cases hq : nr q with
    | some t =>
      rw [List.nil_append, List.nil_append,
          promiseRepeat_cons_some nr red acc p rest t (hnr.trans hq),
          promiseRepeat_cons_some nr red acc q rest t hq, hred]
    | none =>
      rw [List.nil_append, List.nil_append,
          promiseRepeat_cons_none nr red acc p rest (hnr.trans hq),
          promiseRepeat_cons_none nr red acc q rest hq, hred]
  | cons r fr ih =>
    cases ht : nr r with
    | some t =>
      rw [List.cons_append, List.cons_append,
          promiseRepeat_cons_some nr red acc r (fr ++ p :: rest) t ht,
          promiseRepeat_cons_some nr red acc r (fr ++ q :: rest) t ht,
          ih (red acc r)]
    | none =>
      rw [List.cons_append, List.cons_append,
          promiseRepeat_cons_none nr red acc r (fr ++ p :: rest) ht,
          promiseRepeat_cons_none nr red acc r (fr ++ q :: rest) ht]

theorem isSome_ite {σ : Type} (b : Bool) (x : σ) :
    (if b then some x else none).isSome = b := by
  cases b <;> simp

theorem isSome_iteAnd {σ : Type} (a b : Bool) (x : σ) :
    (if a then (if b then some x else none) else none).isSome = (a && b) := by
  cases a <;> cases b <;> simp

theorem length_flatten_map {α ρ : Type} (g : ρ → List α) (ps : List ρ) :
    ((ps.map g).flatten).length = (ps.map fun r => (g r).length).sum := by
  induction ps with
  | nil => rfl
  | cons r rest ih => simp [ih]

/-- A full walk: when every page of `front` continues and `last` does not,
the driver visits every page and returns the concatenation of their items. -/
theorem repeat_complete {α ρ σ : Type} (nr : ρ → Option σ) (itemsOf : ρ → JsField (List α))
    (cont : ρ → Bool) (hnr : ∀ r, (nr r).isSome = cont r)
    (front : List ρ) (last : ρ)
    (hf : ∀ r ∈ front, cont r = true) (hl : cont last = false) :
    promiseRepeat nr (fun c r => foldPage none c (itemsOf r)) [] (front ++ [last]) =
      (((front ++ [last]).map fun r => jsItems (itemsOf r)).flatten, front.length + 1) := by
  have hstop : nr last = none := by
    cases h : nr last with
    | none => rfl
    | some t =>
      have := hnr last
      rw [h, hl] at this
      simp at this
  have hf2 : ∀ r ∈ front, (nr r).isSome = true := fun r hr => (hnr r).trans (hf r hr)
  rw [show front ++ [last] = front ++ last :: [] from rfl,
      promiseRepeat_stopAt nr _ front last [] [] hf2 hstop,
      foldl_foldPage_none]
  simp

/-- A truncated walk: when every page of `front` continues and `stop` does
not, the pages in `rest` are never fetched and the number of fetches is
`front.length + 1`. -/
theorem repeat_stopEarly {ρ σ χ : Type} (nr : ρ → Option σ) (red : χ → ρ → χ)
    (cont : ρ → Bool) (hnr : ∀ r, (nr r).isSome = cont r)
    (front : List ρ) (stop : ρ) (rest : List ρ) (acc : χ)
    (hf : ∀ r ∈ front, cont r = true) (hs : cont stop = false) :
    promiseRepeat nr red acc (front ++ stop :: rest) =
      promiseRepeat nr red acc (front ++ [stop]) ∧
    (promiseRepeat nr red acc (front ++ stop :: rest)).2 = front.length + 1 := by
  have hstop : nr stop = none := by
    cases h : nr stop with
    | none => rfl
    | some t =>
      have := hnr stop
      rw [h, hs] at this
      simp at this
  have hf2 : ∀ r ∈ front, (nr r).isSome = true := fun r hr => (hnr r).trans (hf r hr)
  rw [promiseRepeat_stopAt nr red front stop rest acc hf2 hstop,
      show front ++ [stop] = front ++ stop :: [] from rfl,
      promiseRepeat_stopAt nr red front stop [] acc hf2 hstop]
  exact ⟨rfl, rfl⟩

/-- C1: for every finite sequence of N pages, each page carrying a
(possibly empty) list of items in its items field, every pagination adapter
(fetchAllByPosition, fetchAllByNextToken, fetchAllByNextTokenV3,
fetchAllByMarker, fetchAllByContinuationToken, fetchAllByExclusiveStartKey,
and the generic fetchAllWithPagination) returns exactly the concatenation
of the items of all pages in page-arrival order, and the total item count
equals the sum of the per-page counts.  The page sequence is presented as
the pages before the final one (each carrying a truthy continuation value)
followed by the final page (whose continuation value does not continue). -/
theorem C1_pagination_completeness {α : Type}
    (f1 : List (PositionResponse α)) (l1 : PositionResponse α)
    (f2 : List (NextTokenResponse α)) (l2 : NextTokenResponse α)
    (f3 : List (NextTokenV3Response α)) (l3 : NextTokenV3Response α)
    (f4 : List (MarkerResponse α)) (l4 : MarkerResponse α)
    (f5 : List (ContinuationTokenResponse α)) (l5 : ContinuationTokenResponse α)
    (f6 : List (ExclusiveStartKeyResponse α)) (l6 : ExclusiveStartKeyResponse α)
    (f7 : List (GenericResponse α)) (l7 : GenericResponse α)
    (should : Option (GenericResponse α → Bool))
    (h1f : ∀ r ∈ f1, strTruthy r.position = true)
    (h1l : strTruthy l1.position = false)
    (h1i : ∀ r ∈ f1 ++ [l1], r.itemsFieldValue.isVal = true)
    (h2f : ∀ r ∈ f2, strTruthy r.NextToken = true)
    (h2l : strTruthy l2.NextToken = false)
    (h2i : ∀ r ∈ f2 ++ [l2], r.itemsFieldValue.isVal = true)
    (h3f : ∀ r ∈ f3, strTruthy r.nextToken = true)
    (h3l : strTruthy l3.nextToken = false)
    (h3i : ∀ r ∈ f3 ++ [l3], r.itemsFieldValue.isVal = true)
    (h4f : ∀ r ∈ f4, strTruthy r.NextMarker = true)
    (h4l : strTruthy l4.NextMarker = false)
    (h4i : ∀ r ∈ f4 ++ [l4], r.itemsFieldValue.isVal = true)
    (h5f : ∀ r ∈ f5, strTruthy r.NextContinuationToken = true)
    (h5l : strTruthy l5.NextContinuationToken = false)
    (h5i : ∀ r ∈ f5 ++ [l5], r.itemsFieldValue.isVal = true)
    (h6f : ∀ r ∈ f6, strTruthy r.LastEvaluatedKey = true)
    (h6l : strTruthy l6.LastEvaluatedKey = false)
    (h6i : ∀ r ∈ f6 ++ [l6], r.itemsFieldValue.isVal = true)
    (h7f : ∀ r ∈ f7, (shouldFetchOk should r && strTruthy r.paginationFieldValue) = true)
    (h7l : (shouldFetchOk should l7 && strTruthy l7.paginationFieldValue) = false)
    (h7i : ∀ r ∈ f7 ++ [l7], r.itemsFieldValue.isVal = true) :
    ((fetchAllByPosition (f1 ++ [l1]) none).1 =
        ((f1 ++ [l1]).map fun r => jsItems r.itemsFieldValue).flatten ∧
     (fetchAllByPosition (f1 ++ [l1]) none).1.length =
        ((f1 ++ [l1]).map fun r => (jsItems r.itemsFieldValue).length).sum) ∧
    ((fetchAllByNextToken (f2 ++ [l2]) none).1 =
        ((f2 ++ [l2]).map fun r => jsItems r.itemsFieldValue).flatten ∧
     (fetchAllByNextToken (f2 ++ [l2]) none).1.length =
        ((f2 ++ [l2]).map fun r => (jsItems r.itemsFieldValue).length).sum) ∧
    ((fetchAllByNextTokenV3 (f3 ++ [l3]) none).1 =
        ((f3 ++ [l3]).map fun r => jsItems r.itemsFieldValue).flatten ∧
     (fetchAllByNextTokenV3 (f3 ++ [l3]) none).1.length =
        ((f3 ++ [l3]).map fun r => (jsItems r.itemsFieldValue).length).sum) ∧
    ((fetchAllByMarker (f4 ++ [l4]) none).1 =
        ((f4 ++ [l4]).map fun r => jsItems r.itemsFieldValue).flatten ∧
     (fetchAllByMarker (f4 ++ [l4]) none).1.length =
        ((f4 ++ [l4]).map fun r => (jsItems r.itemsFieldValue).length).sum) ∧
    ((fetchAllByContinuationToken (f5 ++ [l5]) none).1 =
        ((f5 ++ [l5]).map fun r => jsItems r.itemsFieldValue).flatten ∧
     (fetchAllByContinuationToken (f5 ++ [l5]) none).1.length =
        ((f5 ++ [l5]).map fun r => (jsItems r.itemsFieldValue).length).sum) ∧
    ((fetchAllByExclusiveStartKey (f6 ++ [l6]) none).1 =
        ((f6 ++ [l6]).map fun r => jsItems r.itemsFieldValue).flatten ∧
     (fetchAllByExclusiveStartKey (f6 ++ [l6]) none).1.length =
        ((f6 ++ [l6]).map fun r => (jsItems r.itemsFieldValue).length).sum) ∧
    ((fetchAllWithPagination (f7 ++ [l7]) should none).1 =
        ((f7 ++ [l7]).map fun r => jsItems r.itemsFieldValue).flatten ∧
     (fetchAllWithPagination (f7 ++ [l7]) should none).1.length =
        ((f7 ++ [l7]).map fun r => (jsItems r.itemsFieldValue).length).sum) := by
  have k1 := repeat_complete
    (fun response => if strTruthy response.position then
        some (PositionRequest.mk response.position) else none)
    (fun r : PositionResponse α => r.itemsFieldValue)
    (fun r => strTruthy r.position) (fun r => isSome_ite _ _) f1 l1 h1f h1l
  have e1 : (fetchAllByPosition (f1 ++ [l1]) none).1 =
      ((f1 ++ [l1]).map fun r => jsItems r.itemsFieldValue).flatten := congrArg Prod.fst k1
  have k2 := repeat_complete
    (fun response => if strTruthy response.NextToken then
        some (NextTokenRequest.mk response.NextToken) else none)
    (fun r : NextTokenResponse α => r.itemsFieldValue)
    (fun r => strTruthy r.NextToken) (fun r => isSome_ite _ _) f2 l2 h2f h2l
  have e2 : (fetchAllByNextToken (f2 ++ [l2]) none).1 =
      ((f2 ++ [l2]).map fun r => jsItems r.itemsFieldValue).flatten := congrArg Prod.fst k2
  have k3 := repeat_complete
    (fun response => if strTruthy response.nextToken then
        some (NextTokenV3Request.mk response.nextToken) else none)
    (fun r : NextTokenV3Response α => r.itemsFieldValue)
    (fun r => strTruthy r.nextToken) (fun r => isSome_ite _ _) f3 l3 h3f h3l
  have e3 : (fetchAllByNextTokenV3 (f3 ++ [l3]) none).1 =
      ((f3 ++ [l3]).map fun r => jsItems r.itemsFieldValue).flatten := congrArg Prod.fst k3
  have k4 := repeat_complete
    (fun response => if strTruthy response.NextMarker then
        some (MarkerRequest.mk response.NextMarker) else none)
    (fun r : MarkerResponse α => r.itemsFieldValue)
    (fun r => strTruthy r.NextMarker) (fun r => isSome_ite _ _) f4 l4 h4f h4l
  have e4 : (fetchAllByMarker (f4 ++ [l4]) none).1 =
      ((f4 ++ [l4]).map fun r => jsItems r.itemsFieldValue).flatten := congrArg Prod.fst k4
  have k5 := repeat_complete
    (fun response => if strTruthy response.NextContinuationToken then
        some (ContinuationTokenRequest.mk response.NextContinuationToken) else none)
    (fun r : ContinuationTokenResponse α => r.itemsFieldValue)
    (fun r => strTruthy r.NextContinuationToken) (fun r => isSome_ite _ _) f5 l5 h5f h5l
  have e5 : (fetchAllByContinuationToken (f5 ++ [l5]) none).1 =
      ((f5 ++ [l5]).map fun r => jsItems r.itemsFieldValue).flatten := congrArg Prod.fst k5
  have k6 := repeat_complete
    (fun response => if strTruthy response.LastEvaluatedKey then
        some (ExclusiveStartKeyRequest.mk response.LastEvaluatedKey) else none)
    (fun r : ExclusiveStartKeyResponse α => r.itemsFieldValue)
    (fun r => strTruthy r.LastEvaluatedKey) (fun r => isSome_ite _ _) f6 l6 h6f h6l
  have e6 : (fetchAllByExclusiveStartKey (f6 ++ [l6]) none).1 =
      ((f6 ++ [l6]).map fun r => jsItems r.itemsFieldValue).flatten := congrArg Prod.fst k6
  have k7 := repeat_complete
    (fun response => if shouldFetchOk should response then
        (if strTruthy response.paginationFieldValue then
           some (GenericRequest.mk response.paginationFieldValue) else none)
      else none)
    (fun r : GenericResponse α => r.itemsFieldValue)
    (fun r => shouldFetchOk should r && strTruthy r.paginationFieldValue)
    (fun r => isSome_iteAnd _ _ _) f7 l7 h7f h7l
  have e7 : (fetchAllWithPagination (f7 ++ [l7]) should none).1 =
      ((f7 ++ [l7]).map fun r => jsItems r.itemsFieldValue).flatten := congrArg Prod.fst k7
  refine ⟨⟨e1, ?_⟩, ⟨e2, ?_⟩, ⟨e3, ?_⟩, ⟨e4, ?_⟩, ⟨e5, ?_⟩, ⟨e6, ?_⟩, ⟨e7, ?_⟩⟩
  · rw [e1]; exact length_flatten_map _ _
  · rw [e2]; exact length_flatten_map _ _
  · rw [e3]; exact length_flatten_map _ _
  · rw [e4]; exact length_flatten_map _ _
  · rw [e5]; exact length_flatten_map _ _
  · rw [e6]; exact length_flatten_map _ _
  · rw [e7]; exact length_flatten_map _ _

/-- C6: for every pagination adapter and every upstream source whose page N
is the first response that omits the continuation field of the convention
(every earlier page carrying a truthy continuation value), the adapter
performs exactly N fetch calls: it issues no further fetch after that
response (any later pages of the source are irrelevant) and returns the
accumulator.  Termination on such sources is inherent in the model, the
driver being a total function of the page list. -/
theorem C6_termination_on_absent_continuation {α : Type} (filt : Option (α → Bool))
    (f1 : List (PositionResponse α)) (s1 : PositionResponse α) (r1 : List (PositionResponse α))
    (f2 : List (NextTokenResponse α)) (s2 : NextTokenResponse α) (r2 : List (NextTokenResponse α))
    (f3 : List (NextTokenV3Response α)) (s3 : NextTokenV3Response α) (r3 : List (NextTokenV3Response α))
    (f4 : List (MarkerResponse α)) (s4 : MarkerResponse α) (r4 : List (MarkerResponse α))
    (f5 : List (ContinuationTokenResponse α)) (s5 : ContinuationTokenResponse α)
    (r5 : List (ContinuationTokenResponse α))
    (f6 : List (ExclusiveStartKeyResponse α)) (s6 : ExclusiveStartKeyResponse α)
    (r6 : List (ExclusiveStartKeyResponse α))
    (f7 : List (GenericResponse α)) (s7 : GenericResponse α) (r7 : List (GenericResponse α))
    (should : Option (GenericResponse α → Bool))
    (h1f : ∀ r ∈ f1, strTruthy r.position = true) (h1s : s1.position = JsField.absent)
    (h2f : ∀ r ∈ f2, strTruthy r.NextToken = true) (h2s : s2.NextToken = JsField.absent)
    (h3f : ∀ r ∈ f3, strTruthy r.nextToken = true) (h3s : s3.nextToken = JsField.absent)
    (h4f : ∀ r ∈ f4, strTruthy r.NextMarker = true) (h4s : s4.NextMarker = JsField.absent)
    (h5f : ∀ r ∈ f5, strTruthy r.NextContinuationToken = true)
    (h5s : s5.NextContinuationToken = JsField.absent)
    (h6f : ∀ r ∈ f6, strTruthy r.LastEvaluatedKey = true)
    (h6s : s6.LastEvaluatedKey = JsField.absent)
    (h7f : ∀ r ∈ f7, (shouldFetchOk should r && strTruthy r.paginationFieldValue) = true)
    (h7s : s7.paginationFieldValue = JsField.absent) :
    (fetchAllByPosition (f1 ++ s1 :: r1) filt = fetchAllByPosition (f1 ++ [s1]) filt ∧
     (fetchAllByPosition (f1 ++ s1 :: r1) filt).2 = f1.length + 1) ∧
    (fetchAllByNextToken (f2 ++ s2 :: r2) filt = fetchAllByNextToken (f2 ++ [s2]) filt ∧
     (fetchAllByNextToken (f2 ++ s2 :: r2) filt).2 = f2.length + 1) ∧
    (fetchAllByNextTokenV3 (f3 ++ s3 :: r3) filt = fetchAllByNextTokenV3 (f3 ++ [s3]) filt ∧
     (fetchAllByNextTokenV3 (f3 ++ s3 :: r3) filt).2 = f3.length + 1) ∧
    (fetchAllByMarker (f4 ++ s4 :: r4) filt = fetchAllByMarker (f4 ++ [s4]) filt ∧
     (fetchAllByMarker (f4 ++ s4 :: r4) filt).2 = f4.length + 1) ∧
    (fetchAllByContinuationToken (f5 ++ s5 :: r5) filt =
       fetchAllByContinuationToken (f5 ++ [s5]) filt ∧
     (fetchAllByContinuationToken (f5 ++ s5 :: r5) filt).2 = f5.length + 1) ∧
    (fetchAllByExclusiveStartKey (f6 ++ s6 :: r6) filt =
       fetchAllByExclusiveStartKey (f6 ++ [s6]) filt ∧
     (fetchAllByExclusiveStartKey (f6 ++ s6 :: r6) filt).2 = f6.length + 1) ∧
    (fetchAllWithPagination (f7 ++ s7 :: r7) should filt =
       fetchAllWithPagination (f7 ++ [s7]) should filt ∧
     (fetchAllWithPagination (f7 ++ s7 :: r7) should filt).2 = f7.length + 1) := by
  refine ⟨?_, ?_, ?_, ?_, ?_, ?_, ?_⟩
  · exact repeat_stopEarly _ _ (fun r => strTruthy r.position)
      (fun r => isSome_ite _ _) f1 s1 r1 [] h1f (by simp [h1s, strTruthy])
  · exact repeat_stopEarly _ _ (fun r => strTruthy r.NextToken)
      (fun r => isSome_ite _ _) f2 s2 r2 [] h2f (by simp [h2s, strTruthy])
  · exact repeat_stopEarly _ _ (fun r => strTruthy r.nextToken)
      (fun r => isSome_ite _ _) f3 s3 r3 [] h3f (by simp [h3s, strTruthy])
  · exact repeat_stopEarly _ _ (fun r => strTruthy r.NextMarker)
      (fun r => isSome_ite _ _) f4 s4 r4 [] h4f (by simp [h4s, strTruthy])
  · exact repeat_stopEarly _ _ (fun r => strTruthy r.NextContinuationToken)
      (fun r => isSome_ite _ _) f5 s5 r5 [] h5f (by simp [h5s, strTruthy])
  · exact repeat_stopEarly _ _ (fun r => strTruthy r.LastEvaluatedKey)
      (fun r => isSome_ite _ _) f6 s6 r6 [] h6f (by simp [h6s, strTruthy])
  · exact repeat_stopEarly _ _
      (fun r => shouldFetchOk should r && strTruthy r.paginationFieldValue)
      (fun r => isSome_iteAnd _ _ _) f7 s7 r7 [] h7f (by simp [h7s, strTruthy])

/-- C8: for every pagination adapter, every page sequence and every per-item
predicate, the sequence returned when the filter is supplied equals the
sequence returned without a filter with the items failing the predicate
removed, in the same order (so items failing the predicate never enter the
accumulator), and the walk itself (its fetch count) is unchanged. -/
theorem C8_filter_correctness {α : Type} (f : α → Bool)
    (p1 : List (PositionResponse α)) (p2 : List (NextTokenResponse α))
    (p3 : List (NextTokenV3Response α)) (p4 : List (MarkerResponse α))
    (p5 : List (ContinuationTokenResponse α)) (p6 : List (ExclusiveStartKeyResponse α))
    (p7 : List (GenericResponse α)) (should : Option (GenericResponse α → Bool)) :
    ((fetchAllByPosition p1 (some f)).1 = ((fetchAllByPosition p1 none).1).filter f ∧
     (fetchAllByPosition p1 (some f)).2 = (fetchAllByPosition p1 none).2) ∧
    ((fetchAllByNextToken p2 (some f)).1 = ((fetchAllByNextToken p2 none).1).filter f ∧
     (fetchAllByNextToken p2 (some f)).2 = (fetchAllByNextToken p2 none).2) ∧
    ((fetchAllByNextTokenV3 p3 (some f)).1 = ((fetchAllByNextTokenV3 p3 none).1).filter f ∧
     (fetchAllByNextTokenV3 p3 (some f)).2 = (fetchAllByNextTokenV3 p3 none).2) ∧
    ((fetchAllByMarker p4 (some f)).1 = ((fetchAllByMarker p4 none).1).filter f ∧
     (fetchAllByMarker p4 (some f)).2 = (fetchAllByMarker p4 none).2) ∧
    ((fetchAllByContinuationToken p5 (some f)).1 =
       ((fetchAllByContinuationToken p5 none).1).filter f ∧
     (fetchAllByContinuationToken p5 (some f)).2 = (fetchAllByContinuationToken p5 none).2) ∧
    ((fetchAllByExclusiveStartKey p6 (some f)).1 =
       ((fetchAllByExclusiveStartKey p6 none).1).filter f ∧
     (fetchAllByExclusiveStartKey p6 (some f)).2 = (fetchAllByExclusiveStartKey p6 none).2) ∧
    ((fetchAllWithPagination p7 should (some f)).1 =
       ((fetchAllWithPagination p7 should none).1).filter f ∧
     (fetchAllWithPagination p7 should (some f)).2 = (fetchAllWithPagination p7 should none).2) := by
  refine ⟨?_, ?_, ?_, ?_, ?_, ?_, ?_⟩
  · have h := promiseRepeat_filter
      (fun response : PositionResponse α => if strTruthy response.position then
          some (PositionRequest.mk response.position) else none)
      (fun r => r.itemsFieldValue) f p1 []
    have h2 : fetchAllByPosition p1 (some f) =
        (((fetchAllByPosition p1 none).1).filter f, (fetchAllByPosition p1 none).2) := h
    exact ⟨by rw [h2], by rw [h2]⟩
  · have h := promiseRepeat_filter
      (fun response : NextTokenResponse α => if strTruthy response.NextToken then
          some (NextTokenRequest.mk response.NextToken) else none)
      (fun r => r.itemsFieldValue) f p2 []
    have h2 : fetchAllByNextToken p2 (some f) =
        (((fetchAllByNextToken p2 none).1).filter f, (fetchAllByNextToken p2 none).2) := h
    exact ⟨by rw [h2], by rw [h2]⟩
  · have h := promiseRepeat_filter
      (fun response : NextTokenV3Response α => if strTruthy response.nextToken then
          some (NextTokenV3Request.mk response.nextToken) else none)
      (fun r => r.itemsFieldValue) f p3 []
    have h2 : fetchAllByNextTokenV3 p3 (some f) =
        (((fetchAllByNextTokenV3 p3 none).1).filter f, (fetchAllByNextTokenV3 p3 none).2) := h
    exact ⟨by rw [h2], by rw [h2]⟩
  · have h := promiseRepeat_filter
      (fun response : MarkerResponse α => if strTruthy response.NextMarker then
          some (MarkerRequest.mk response.NextMarker) else none)
      (fun r => r.itemsFieldValue) f p4 []
    have h2 : fetchAllByMarker p4 (some f) =
        (((fetchAllByMarker p4 none).1).filter f, (fetchAllByMarker p4 none).2) := h
    exact ⟨by rw [h2], by rw [h2]⟩
  · have h := promiseRepeat_filter
      (fun response : ContinuationTokenResponse α =>
        if strTruthy response.NextContinuationToken then
          some (ContinuationTokenRequest.mk response.NextContinuationToken) else none)
      (fun r => r.itemsFieldValue) f p5 []
    have h2 : fetchAllByContinuationToken p5 (some f) =
        (((fetchAllByContinuationToken p5 none).1).filter f, (fetchAllByContinuationToken p5 none).2) := h
    exact ⟨by rw [h2], by rw [h2]⟩
  · have h := promiseRepeat_filter
      (fun response : ExclusiveStartKeyResponse α =>
        if strTruthy response.LastEvaluatedKey then
          some (ExclusiveStartKeyRequest.mk response.LastEvaluatedKey) else none)
      (fun r => r.itemsFieldValue) f p6 []
    have h2 : fetchAllByExclusiveStartKey p6 (some f) =
        (((fetchAllByExclusiveStartKey p6 none).1).filter f, (fetchAllByExclusiveStartKey p6 none).2) := h
    exact ⟨by rw [h2], by rw [h2]⟩
  · have h := promiseRepeat_filter
      (fun response : GenericResponse α =>
        if shouldFetchOk should response then
          (if strTruthy response.paginationFieldValue then
             some (GenericRequest.mk response.paginationFieldValue) else none)
        else none)
      (fun r => r.itemsFieldValue) f p7 []
    have h2 : fetchAllWithPagination p7 should (some f) =
        (((fetchAllWithPagination p7 should none).1).filter f,
         (fetchAllWithPagination p7 should none).2) := h
    exact ⟨by rw [h2], by rw [h2]⟩

theorem foldPage_notVal {α : Type} (filt : Option (α → Bool)) (c : List α)
    (e : JsField (List α)) (h : e.isVal = false) :
    foldPage filt c e = foldPage filt c (JsField.val []) := by
  cases e with
  | val xs => simp [JsField.isVal] at h
  | absent => cases filt <;> simp [foldPage]
  | undef => cases filt <;> simp [foldPage]

/-- C9: for every pagination adapter, a page whose items field is absent or
does not hold an array contributes zero items: the run is identical to the
run in which that page carries an empty array of items — the accumulator is
unchanged by the page, nothing fails, and the walk continues or stops
exactly as dictated by the continuation field alone. -/
theorem C9_missing_items_field_is_empty {α : Type} (filt : Option (α → Bool))
    (f1 : List (PositionResponse α)) (p1 : PositionResponse α) (r1 : List (PositionResponse α))
    (f2 : List (NextTokenResponse α)) (p2 : NextTokenResponse α) (r2 : List (NextTokenResponse α))
    (f3 : List (NextTokenV3Response α)) (p3 : NextTokenV3Response α) (r3 : List (NextTokenV3Response α))
    (f4 : List (MarkerResponse α)) (p4 : MarkerResponse α) (r4 : List (MarkerResponse α))
    (f5 : List (ContinuationTokenResponse α)) (p5 : ContinuationTokenResponse α)
    (r5 : List (ContinuationTokenResponse α))
    (f6 : List (ExclusiveStartKeyResponse α)) (p6 : ExclusiveStartKeyResponse α)
    (r6 : List (ExclusiveStartKeyResponse α))
    (f7 : List (GenericResponse α)) (p7 : GenericResponse α) (r7 : List (GenericResponse α))
    (h1 : p1.itemsFieldValue.isVal = false) (h2 : p2.itemsFieldValue.isVal = false)
    (h3 : p3.itemsFieldValue.isVal = false) (h4 : p4.itemsFieldValue.isVal = false)
    (h5 : p5.itemsFieldValue.isVal = false) (h6 : p6.itemsFieldValue.isVal = false)
    (h7 : p7.itemsFieldValue.isVal = false) :
    fetchAllByPosition (f1 ++ p1 :: r1) filt =
      fetchAllByPosition (f1 ++ { p1 with itemsFieldValue := JsField.val [] } :: r1) filt ∧
    fetchAllByNextToken (f2 ++ p2 :: r2) filt =
      fetchAllByNextToken (f2 ++ { p2 with itemsFieldValue := JsField.val [] } :: r2) filt ∧
    fetchAllByNextTokenV3 (f3 ++ p3 :: r3) filt =
      fetchAllByNextTokenV3 (f3 ++ { p3 with itemsFieldValue := JsField.val [] } :: r3) filt ∧
    fetchAllByMarker (f4 ++ p4 :: r4) filt =
      fetchAllByMarker (f4 ++ { p4 with itemsFieldValue := JsField.val [] } :: r4) filt ∧
    fetchAllByContinuationToken (f5 ++ p5 :: r5) filt =
      fetchAllByContinuationToken (f5 ++ { p5 with itemsFieldValue := JsField.val [] } :: r5) filt ∧
    fetchAllByExclusiveStartKey (f6 ++ p6 :: r6) filt =
      fetchAllByExclusiveStartKey (f6 ++ { p6 with itemsFieldValue := JsField.val [] } :: r6) filt ∧
    fetchAllWithPagination (f7 ++ p7 :: r7) none filt =
      fetchAllWithPagination (f7 ++ { p7 with itemsFieldValue := JsField.val [] } :: r7) none filt := by
  refine ⟨?_, ?_, ?_, ?_, ?_, ?_, ?_⟩
  · exact promiseRepeat_congrPage
      (fun response : PositionResponse α => if strTruthy response.position then
          some (PositionRequest.mk response.position) else none)
      (fun c r => foldPage filt c r.itemsFieldValue) p1
      { p1 with itemsFieldValue := JsField.val [] } rfl
      (fun c => foldPage_notVal filt c p1.itemsFieldValue h1) f1 r1 []
  · exact promiseRepeat_congrPage
      (fun response : NextTokenResponse α => if strTruthy response.NextToken then
          some (NextTokenRequest.mk response.NextToken) else none)
      (fun c r => foldPage filt c r.itemsFieldValue) p2
      { p2 with itemsFieldValue := JsField.val [] } rfl
      (fun c => foldPage_notVal filt c p2.itemsFieldValue h2) f2 r2 []
  · exact promiseRepeat_congrPage
      (fun response : NextTokenV3Response α => if strTruthy response.nextToken then
          some (NextTokenV3Request.mk response.nextToken) else none)
      (fun c r => foldPage filt c r.itemsFieldValue) p3
      { p3 with itemsFieldValue := JsField.val [] } rfl
      (fun c => foldPage_notVal filt c p3.itemsFieldValue h3) f3 r3 []
  · exact promiseRepeat_congrPage
      (fun response : MarkerResponse α => if strTruthy response.NextMarker then
          some (MarkerRequest.mk response.NextMarker) else none)
      (fun c r => foldPage filt c r.itemsFieldValue) p4
      { p4 with itemsFieldValue := JsField.val [] } rfl
      (fun c => foldPage_notVal filt c p4.itemsFieldValue h4) f4 r4 []
  · exact promiseRepeat_congrPage
      (fun response : ContinuationTokenResponse α =>
        if strTruthy response.NextContinuationToken then
          some (ContinuationTokenRequest.mk response.NextContinuationToken) else none)
      (fun c r => foldPage filt c r.itemsFieldValue) p5
      { p5 with itemsFieldValue := JsField.val [] } rfl
      (fun c => foldPage_notVal filt c p5.itemsFieldValue h5) f5 r5 []
  · exact promiseRepeat_congrPage
      (fun response : ExclusiveStartKeyResponse α =>
        if strTruthy response.LastEvaluatedKey then
          some (ExclusiveStartKeyRequest.mk response.LastEvaluatedKey) else none)
      (fun c r => foldPage filt c r.itemsFieldValue) p6
      { p6 with itemsFieldValue := JsField.val [] } rfl
      (fun c => foldPage_notVal filt c p6.itemsFieldValue h6) f6 r6 []
  · exact promiseRepeat_congrPage
      (fun response : GenericResponse α =>
        if shouldFetchOk none response then
          (if strTruthy response.paginationFieldValue then
             some (GenericRequest.mk response.paginationFieldValue) else none)
        else none)
      (fun c r => foldPage filt c r.itemsFieldValue) p7
      { p7 with itemsFieldValue := JsField.val [] } rfl
      (fun c => foldPage_notVal filt c p7.itemsFieldValue h7) f7 r7 []

theorem eq_none_of_isSome_false {σ : Type} (o : Option σ) (h : o.isSome = false) :
    o = none := by
  cases o with
  | none => rfl
  | some x => simp at h

/-- C10: for every pagination adapter, a page whose continuation field is
present but holds the falsy empty-string value stops the walk exactly as if
the field were absent: the run equals the run on the same pages with that
field removed, the adapter issues no further fetch (pages after it are
irrelevant and the fetch count is the number of pages up to and including
it), and it returns the accumulated items.  Continuation is decided by the
truthiness of the field value, not by field presence. -/
theorem C10_falsy_continuation_stops {α : Type} (filt : Option (α → Bool))
    (f1 : List (PositionResponse α)) (p1 : PositionResponse α) (r1 : List (PositionResponse α))
    (f2 : List (NextTokenResponse α)) (p2 : NextTokenResponse α) (r2 : List (NextTokenResponse α))
    (f3 : List (NextTokenV3Response α)) (p3 : NextTokenV3Response α) (r3 : List (NextTokenV3Response α))
    (f4 : List (MarkerResponse α)) (p4 : MarkerResponse α) (r4 : List (MarkerResponse α))
    (f5 : List (ContinuationTokenResponse α)) (p5 : ContinuationTokenResponse α)
    (r5 : List (ContinuationTokenResponse α))
    (f6 : List (ExclusiveStartKeyResponse α)) (p6 : ExclusiveStartKeyResponse α)
    (r6 : List (ExclusiveStartKeyResponse α))
    (f7 : List (GenericResponse α)) (p7 : GenericResponse α) (r7 : List (GenericResponse α))
    (should : Option (GenericResponse α → Bool))
    (h1f : ∀ r ∈ f1, strTruthy r.position = true) (h1p : p1.position = JsField.val "")
    (h2f : ∀ r ∈ f2, strTruthy r.NextToken = true) (h2p : p2.NextToken = JsField.val "")
    (h3f : ∀ r ∈ f3, strTruthy r.nextToken = true) (h3p : p3.nextToken = JsField.val "")
    (h4f : ∀ r ∈ f4, strTruthy r.NextMarker = true) (h4p : p4.NextMarker = JsField.val "")
    (h5f : ∀ r ∈ f5, strTruthy r.NextContinuationToken = true)
    (h5p : p5.NextContinuationToken = JsField.val "")
    (h6f : ∀ r ∈ f6, strTruthy r.LastEvaluatedKey = true)
    (h6p : p6.LastEvaluatedKey = JsField.val "")
    (h7f : ∀ r ∈ f7, (shouldFetchOk should r && strTruthy r.paginationFieldValue) = true)
    (h7p : p7.paginationFieldValue = JsField.val "") :
    (fetchAllByPosition (f1 ++ p1 :: r1) filt =
       fetchAllByPosition (f1 ++ { p1 with position := JsField.absent } :: r1) filt ∧
     fetchAllByPosition (f1 ++ p1 :: r1) filt = fetchAllByPosition (f1 ++ [p1]) filt ∧
     (fetchAllByPosition (f1 ++ p1 :: r1) filt).2 = f1.length + 1) ∧
    (fetchAllByNextToken (f2 ++ p2 :: r2) filt =
       fetchAllByNextToken (f2 ++ { p2 with NextToken := JsField.absent } :: r2) filt ∧
     fetchAllByNextToken (f2 ++ p2 :: r2) filt = fetchAllByNextToken (f2 ++ [p2]) filt ∧
     (fetchAllByNextToken (f2 ++ p2 :: r2) filt).2 = f2.length + 1) ∧
    (fetchAllByNextTokenV3 (f3 ++ p3 :: r3) filt =
       fetchAllByNextTokenV3 (f3 ++ { p3 with nextToken := JsField.absent } :: r3) filt ∧
     fetchAllByNextTokenV3 (f3 ++ p3 :: r3) filt = fetchAllByNextTokenV3 (f3 ++ [p3]) filt ∧
     (fetchAllByNextTokenV3 (f3 ++ p3 :: r3) filt).2 = f3.length + 1) ∧
    (fetchAllByMarker (f4 ++ p4 :: r4) filt =
       fetchAllByMarker (f4 ++ { p4 with NextMarker := JsField.absent } :: r4) filt ∧
     fetchAllByMarker (f4 ++ p4 :: r4) filt = fetchAllByMarker (f4 ++ [p4]) filt ∧
     (fetchAllByMarker (f4 ++ p4 :: r4) filt).2 = f4.length + 1) ∧
    (fetchAllByContinuationToken (f5 ++ p5 :: r5) filt =
       fetchAllByContinuationToken
         (f5 ++ { p5 with NextContinuationToken := JsField.absent } :: r5) filt ∧
     fetchAllByContinuationToken (f5 ++ p5 :: r5) filt =
       fetchAllByContinuationToken (f5 ++ [p5]) filt ∧
     (fetchAllByContinuationToken (f5 ++ p5 :: r5) filt).2 = f5.length + 1) ∧
    (fetchAllByExclusiveStartKey (f6 ++ p6 :: r6) filt =
       fetchAllByExclusiveStartKey
         (f6 ++ { p6 with LastEvaluatedKey := JsField.absent } :: r6) filt ∧
     fetchAllByExclusiveStartKey (f6 ++ p6 :: r6) filt =
       fetchAllByExclusiveStartKey (f6 ++ [p6]) filt ∧
     (fetchAllByExclusiveStartKey (f6 ++ p6 :: r6) filt).2 = f6.length + 1) ∧
    (fetchAllWithPagination (f7 ++ p7 :: r7) should filt =
       fetchAllWithPagination
         (f7 ++ { p7 with paginationFieldValue := JsField.absent } :: r7) should filt ∧
     fetchAllWithPagination (f7 ++ p7 :: r7) should filt =
       fetchAllWithPagination (f7 ++ [p7]) should filt ∧
     (fetchAllWithPagination (f7 ++ p7 :: r7) should filt).2 = f7.length + 1) := by
  have hpf : strTruthy (JsField.val "") = false := by decide
  have hc1 : strTruthy p1.position = false := by rw [h1p]; exact hpf
  have hc2 : strTruthy p2.NextToken = false := by rw [h2p]; exact hpf
  have hc3 : strTruthy p3.nextToken = false := by rw [h3p]; exact hpf
  have hc4 : strTruthy p4.NextMarker = false := by rw [h4p]; exact hpf
  have hc5 : strTruthy p5.NextContinuationToken = false := by rw [h5p]; exact hpf
  have hc6 : strTruthy p6.LastEvaluatedKey = false := by rw [h6p]; exact hpf
  have hc7 : (shouldFetchOk should p7 && strTruthy p7.paginationFieldValue) = false := by
    rw [h7p, hpf]; exact Bool.and_false _
  refine ⟨⟨?_, ?_⟩, ⟨?_, ?_⟩, ⟨?_, ?_⟩, ⟨?_, ?_⟩, ⟨?_, ?_⟩, ⟨?_, ?_⟩, ⟨?_, ?_⟩⟩
  · exact promiseRepeat_congrPage
      (fun response : PositionResponse α => if strTruthy response.position then
          some (PositionRequest.mk response.position) else none)
      (fun c r => foldPage filt c r.itemsFieldValue) p1
      { p1 with position := JsField.absent }
      (by
        apply Eq.trans (eq_none_of_isSome_false _ ((isSome_ite _ _).trans hc1))
        exact (eq_none_of_isSome_false _ ((isSome_ite _ _).trans rfl)).symm)
      (fun c => rfl) f1 r1 []
  · exact repeat_stopEarly _ _ (fun r => strTruthy r.position)
      (fun r => isSome_ite _ _) f1 p1 r1 [] h1f hc1
  · exact promiseRepeat_congrPage
      (fun response : NextTokenResponse α => if strTruthy response.NextToken then
          some (NextTokenRequest.mk response.NextToken) else none)
      (fun c r => foldPage filt c r.itemsFieldValue) p2
      { p2 with NextToken := JsField.absent }
      (by
        apply Eq.trans (eq_none_of_isSome_false _ ((isSome_ite _ _).trans hc2))
        exact (eq_none_of_isSome_false _ ((isSome_ite _ _).trans rfl)).symm)
      (fun c => rfl) f2 r2 []
  · exact repeat_stopEarly _ _ (fun r => strTruthy r.NextToken)
      (fun r => isSome_ite _ _) f2 p2 r2 [] h2f hc2
  · exact promiseRepeat_congrPage
      (fun response : NextTokenV3Response α => if strTruthy response.nextToken then
          some (NextTokenV3Request.mk response.nextToken) else none)
      (fun c r => foldPage filt c r.itemsFieldValue) p3
      { p3 with nextToken := JsField.absent }
      (by
        apply Eq.trans (eq_none_of_isSome_false _ ((isSome_ite _ _).trans hc3))
        exact (eq_none_of_isSome_false _ ((isSome_ite _ _).trans rfl)).symm)
      (fun c => rfl) f3 r3 []
  · exact repeat_stopEarly _ _ (fun r => strTruthy r.nextToken)
      (fun r => isSome_ite _ _) f3 p3 r3 [] h3f hc3
  · exact promiseRepeat_congrPage
      (fun response : MarkerResponse α => if strTruthy response.NextMarker then
          some (MarkerRequest.mk response.NextMarker) else none)
      (fun c r => foldPage filt c r.itemsFieldValue) p4
      { p4 with NextMarker := JsField.absent }
      (by
        apply Eq.trans (eq_none_of_isSome_false _ ((isSome_ite _ _).trans hc4))
        exact (eq_none_of_isSome_false _ ((isSome_ite _ _).trans rfl)).symm)
      (fun c => rfl) f4 r4 []
  · exact repeat_stopEarly _ _ (fun r => strTruthy r.NextMarker)
      (fun r => isSome_ite _ _) f4 p4 r4 [] h4f hc4
  · exact promiseRepeat_congrPage
      (fun response : ContinuationTokenResponse α =>
        if strTruthy response.NextContinuationToken then
          some (ContinuationTokenRequest.mk response.NextContinuationToken) else none)
      (fun c r => foldPage filt c r.itemsFieldValue) p5
      { p5 with NextContinuationToken := JsField.absent }
      (by
        apply Eq.trans (eq_none_of_isSome_false _ ((isSome_ite _ _).trans hc5))
        exact (eq_none_of_isSome_false _ ((isSome_ite _ _).trans rfl)).symm)
      (fun c => rfl) f5 r5 []
  · exact repeat_stopEarly _ _ (fun r => strTruthy r.NextContinuationToken)
      (fun r => isSome_ite _ _) f5 p5 r5 [] h5f hc5
  · exact promiseRepeat_congrPage
      (fun response : ExclusiveStartKeyResponse α =>
        if strTruthy response.LastEvaluatedKey then
          some (ExclusiveStartKeyRequest.mk response.LastEvaluatedKey) else none)
      (fun c r => foldPage filt c r.itemsFieldValue) p6
      { p6 with LastEvaluatedKey := JsField.absent }
      (by
        apply Eq.trans (eq_none_of_isSome_false _ ((isSome_ite _ _).trans hc6))
        exact (eq_none_of_isSome_false _ ((isSome_ite _ _).trans rfl)).symm)
      (fun c => rfl) f6 r6 []
  · exact repeat_stopEarly _ _ (fun r => strTruthy r.LastEvaluatedKey)
      (fun r => isSome_ite _ _) f6 p6 r6 [] h6f hc6
  · exact promiseRepeat_congrPage
      (fun response : GenericResponse α =>
        if shouldFetchOk should response then
          (if strTruthy response.paginationFieldValue then
             some (GenericRequest.mk response.paginationFieldValue) else none)
        else none)
      (fun c r => foldPage filt c r.itemsFieldValue) p7
      { p7 with paginationFieldValue := JsField.absent }
      (by
        apply Eq.trans (eq_none_of_isSome_false _ ((isSome_iteAnd _ _ _).trans hc7))
        exact (eq_none_of_isSome_false _
          ((isSome_iteAnd _ _ _).trans (Bool.and_false _))).symm)
      (fun c => rfl) f7 r7 []
  · exact repeat_stopEarly _ _
      (fun r => shouldFetchOk should r && strTruthy r.paginationFieldValue)
      (fun r => isSome_iteAnd _ _ _) f7 p7 r7 [] h7f hc7

/-! ## Generic lemmas about the retry engine -/

theorem promiseWithRetry_eq {R E : Type} (op : Nat → Except E R)
    (delayOf : Nat → E → Option Int) (sr : E → Except Unit Bool) (fuel attempt : Nat) :
    promiseWithRetry op delayOf sr fuel attempt =
      match op attempt with
      | .ok r => (.ok r, 1, [])
      | .error e =>
        match sr e with
        | .error _ => (.exn, 1, [])
        | .ok false => (.err e, 1, [])
        | .ok true =>
          match delayOf attempt e with
          | none => (.err e, 1, [])
          | some d =>
            if d < 0 then (.err e, 1, [])
            else
              match fuel with
              | 0 => (.fuelOut, 1, [])
              | f + 1 =>
                match promiseWithRetry op delayOf sr f (attempt + 1) with
                | (o, n, ws) => (o, n + 1, d :: ws) := by
  rw [promiseWithRetry]

/-- When the operation never succeeds, the predicate always allows a retry
and the delay schedule allows exactly `m` further attempts from the current
one, the engine performs `m + 1` invocations and propagates the error. -/
theorem withRetryEngine_exhaust {R E : Type} (e : E) (op : Nat → Except E R)
    (delayOf : Nat → E → Option Int) (sr : E → Except Unit Bool)
    (hop : ∀ a, op a = .error e) (hsr : sr e = .ok true) :
    ∀ (m attempt fuel : Nat), m ≤ fuel →
      (∀ i, attempt ≤ i → i < attempt + m → ∃ d, delayOf i e = some d ∧ 0 ≤ d) →
      (delayOf (attempt + m) e = none ∨ ∃ d, delayOf (attempt + m) e = some d ∧ d < 0) →
      ∃ ws, promiseWithRetry op delayOf sr fuel attempt = (.err e, m + 1, ws) := by
  intro m
  induction m with
  | zero =>
    intro attempt fuel _ _ hstop
    rw [Nat.add_zero] at hstop
    refine ⟨[], ?_⟩
    rw [promiseWithRetry_eq, hop]
    rcases hstop with h | ⟨d, hd, hneg⟩
    · simp [hsr, h]
    · simp [hsr, hd, hneg]
  | succ m ih =>
    intro attempt fuel hfuel hdel hstop
    obtain ⟨d0, hd0, hd0n⟩ := hdel attempt (Nat.le_refl _) (by omega)
    cases fuel with
    | zero => omega
    | succ f =>
      obtain ⟨ws, hws⟩ := ih (attempt + 1) f (by omega)
        (fun i h1 h2 => hdel i (by omega) (by omega))
        (by
          have harr : attempt + 1 + m = attempt + (m + 1) := by omega
          rw [harr]
          exact hstop)
      refine ⟨d0 :: ws, ?_⟩
      rw [promiseWithRetry_eq, hop]
      simp [hsr, hd0, hws, show ¬ d0 < 0 by omega]

/-- The engine performs at least one invocation. -/
theorem withRetryEngine_count_pos {R E : Type} (op : Nat → Except E R)
    (delayOf : Nat → E → Option Int) (sr : E → Except Unit Bool) (fuel attempt : Nat) :
    1 ≤ (promiseWithRetry op delayOf sr fuel attempt).2.1 := by
  rw [promiseWithRetry_eq]
  cases hx : op attempt with
  | ok r => simp
  | error e =>
    cases hs : sr e with
    | error u => simp [hs]
    | ok b =>
      cases b with
      | false => simp [hs]
      | true =>
        cases hd : delayOf attempt e with
        | none => simp [hs, hd]
        | some d =>
          by_cases h : d < 0
          · simp [hs, hd, h]
          · cases fuel with
            | zero => simp [hs, hd, h]
            | succ f =>
              rcases hr : promiseWithRetry op delayOf sr f (attempt + 1) with ⟨o, n, ws⟩
              simp [hs, hd, h, hr]

/-- A retry to a second attempt happens exactly when the predicate allows it
and the delay for the first attempt is present and nonnegative. -/
theorem withRetryEngine_first {R E : Type} (e : E) (op : Nat → Except E R)
    (delayOf : Nat → E → Option Int) (sr : E → Except Unit Bool) (fuel : Nat)
    (hfuel : 1 ≤ fuel) (hop : op 1 = .error e) :
    (2 ≤ (promiseWithRetry op delayOf sr fuel 1).2.1 ↔
      (sr e = .ok true ∧ ∃ d, delayOf 1 e = some d ∧ 0 ≤ d)) := by
  cases fuel with
  | zero => omega
  | succ f =>
    rw [promiseWithRetry_eq, hop]
    cases hs : sr e with
    | error u => simp [hs]
    | ok b =>
      cases b with
      | false => simp [hs]
      | true =>
        cases hd : delayOf 1 e with
        | none => simp [hs, hd]
        | some d =>
          by_cases hneg : d < 0
          · simp [hs, hd, hneg]
          · have hcount := withRetryEngine_count_pos op delayOf sr f 2
            rcases hrec : promiseWithRetry op delayOf sr f 2 with ⟨o, n, ws⟩
            rw [hrec] at hcount
            simp at hcount
            simp [hs, hd, hneg, hrec]
            constructor
            · intro _
              omega
            · intro _
              omega

/-- When the predicate refuses, the engine stops after one invocation and
propagates the error unchanged. -/
theorem withRetryEngine_noRetry {R E : Type} (e : E) (op : Nat → Except E R)
    (delayOf : Nat → E → Option Int) (sr : E → Except Unit Bool) (fuel : Nat)
    (hop : op 1 = .error e) (hsr : sr e = .ok false) :
    promiseWithRetry op delayOf sr fuel 1 = (.err e, 1, []) := by
  rw [promiseWithRetry_eq, hop]
  simp [hsr]

/-- When the predicate allows but the schedule yields no delay or a negative
delay, the engine stops after one invocation and propagates the error. -/
theorem withRetryEngine_stopDelay {R E : Type} (e : E) (op : Nat → Except E R)
    (delayOf : Nat → E → Option Int) (sr : E → Except Unit Bool) (fuel : Nat)
    (hop : op 1 = .error e) (hsr : sr e = .ok true)
    (h : delayOf 1 e = none ∨ ∃ d, delayOf 1 e = some d ∧ d < 0) :
    promiseWithRetry op delayOf sr fuel 1 = (.err e, 1, []) := by
  rw [promiseWithRetry_eq, hop]
  rcases h with h | ⟨d, hd, hneg⟩
  · simp [hsr, h]
  · simp [hsr, hd, hneg]

/-- When a retry is authorized with delay `d`, the first wait is `d`. -/
theorem withRetryEngine_firstWait {R E : Type} (e : E) (op : Nat → Except E R)
    (delayOf : Nat → E → Option Int) (sr : E → Except Unit Bool) (fuel : Nat)
    (hfuel : 1 ≤ fuel) (hop : op 1 = .error e) (hsr : sr e = .ok true)
    (d : Int) (hd : delayOf 1 e = some d) (hdn : 0 ≤ d) :
    (promiseWithRetry op delayOf sr fuel 1).2.2.head? = some d := by
  cases fuel with
  | zero => omega
  | succ f =>
    rw [promiseWithRetry_eq, hop]
    rcases hrec : promiseWithRetry op delayOf sr f 2 with ⟨o, n, ws⟩
    simp [hsr, hd, show ¬ d < 0 by omega, hrec]

theorem awsBackoffDelay_arr_nonneg {R : Type} (bk : List Int) (i : Nat) (b : Int)
    (pr : Option R) (pe : Option ErrVal) (hb : bk[i - 1]? = some b) (hbn : 0 ≤ b) :
    ∃ d, awsBackoffDelay (.arr bk) i pr pe = some d ∧ 0 ≤ d := by
  cases hsd : awsRetryDelaySec pe with
  | none => exact ⟨b, by simp [awsBackoffDelay, hb, hsd], hbn⟩
  | some dSec =>
    by_cases hgt : dSec * 1000 > b
    · exact ⟨dSec * 1000,
        by simp [awsBackoffDelay, hb, hsd, show ¬ b < 0 by omega, hgt], by omega⟩
    · exact ⟨b, by simp [awsBackoffDelay, hb, hsd, show ¬ b < 0 by omega, hgt], hbn⟩

theorem awsBackoffDelay_arr_none {R : Type} (bk : List Int) (i : Nat)
    (pr : Option R) (pe : Option ErrVal) (hb : bk[i - 1]? = none) :
    awsBackoffDelay (.arr bk) i pr pe = none := by
  cases hsd : awsRetryDelaySec pe <;> simp [awsBackoffDelay, hb, hsd]

theorem awsBackoffDelay_arr_neg {R : Type} (bk : List Int) (i : Nat) (b : Int)
    (pr : Option R) (pe : Option ErrVal) (hb : bk[i - 1]? = some b) (hneg : b < 0) :
    awsBackoffDelay (.arr bk) i pr pe = some b := by
  cases hsd : awsRetryDelaySec pe <;> simp [awsBackoffDelay, hb, hsd, hneg]

/-- The delay closure authorizes a retry exactly when the backoff array has
a nonnegative entry for the attempt, whatever the server-advised delay is. -/
theorem awsBackoffDelay_arr_iff {R : Type} (bk : List Int) (i : Nat)
    (pr : Option R) (pe : Option ErrVal) :
    (∃ d, awsBackoffDelay (.arr bk) i pr pe = some d ∧ 0 ≤ d) ↔
      (∃ b, bk[i - 1]? = some b ∧ 0 ≤ b) := by
  cases hb : bk[i - 1]? with
  | none => simp [awsBackoffDelay_arr_none bk i pr pe hb]
  | some b =>
    by_cases hbn : 0 ≤ b
    · obtain ⟨d, hd, hdn⟩ := awsBackoffDelay_arr_nonneg bk i b pr pe hb hbn
      simp [hd, hdn, hbn]
    · have hd := awsBackoffDelay_arr_neg bk i b pr pe hb (by omega)
      simp [hd]

/-- The shouldRetry closure answers true exactly when the error is
AWS-shaped, the status-code lookup does not throw, the error is classified
retryable-or-throttling, and the resolved status-code filter admits the
status code. -/
theorem awsShouldRetry_ok_true_iff (sc : StatusCodesArg) (e : ErrVal) :
    awsShouldRetry sc (some e) = .ok true ↔
      (isPossibleAwsError e = true ∧
       ∃ s, awsErrorStatusCode e = .ok s ∧
         ((match e with
           | .obj o => awsErrorRetryable o
           | .prim => false) || isPossibleAwsThrottlingError e) = true ∧
         (match resolveStatusCodes sc with
          | none => True
          | some codes => codes.contains s = true)) := by
  cases hA : isPossibleAwsError e with
  | false => simp [awsShouldRetry, hA]
  | true =>
    cases hS : awsErrorStatusCode e with
    | error u => simp [awsShouldRetry, hA, hS]
    | ok s =>
      cases hR : resolveStatusCodes sc with
      | none => simp [awsShouldRetry, hA, hS, hR]
      | some codes => simp [awsShouldRetry, hA, hS, hR]

/-- Under the default status-code filter, an error carrying a metadata
object with status 400 is never retried. -/
theorem awsShouldRetry_unspecified_400 (o : AwsErrorObj) (m : JsMeta)
    (hmeta : o.metadata = JsField.val m) (hst : m.httpStatusCode = JsField.val 400) :
    awsShouldRetry .unspecified (some (.obj o)) = .ok false := by
  cases hA : isPossibleAwsError (.obj o) with
  | false => simp [awsShouldRetry, hA]
  | true =>
    have hS : awsErrorStatusCode (.obj o) = .ok (some 400) := by
      simp [awsErrorStatusCode, hmeta, hst, JsField.get]
    have hc : (([some 429] : List (Option Int)).contains (some (400 : Int))) = false := by
      decide
    simp [awsShouldRetry, hA, hS, resolveStatusCodes, hc]

/-! ## Retry claims -/

/-- C2 counterexample: the claim as stated is false.  First input: the
backoff array `[-1]` has length 1 and the operation always fails with a
retryable throttling error whose status 429 is admitted by the default
filter, yet withRetry performs 1 invocation, not 2 (a negative array entry
is a stop signal).  Second input: a pure Shape A retryable error with
status 429 and backoff `[100]` of length 1 gives 1 invocation, not 2, and
the final rejection is not the input error but the TypeError escaping the
status-code lookup. -/
theorem C2_counterexample :
    ((awsErrorRetryable exThrottling429
        || isPossibleAwsThrottlingError (.obj exThrottling429)) = true ∧
     awsErrorStatusCode (.obj exThrottling429) = .ok (some 429) ∧
     (withRetry (R := Unit) (fun _ => .error (.obj exThrottling429))
        (.arr [-1]) .unspecified 2).2.1 ≠ 1 + 1) ∧
    (awsErrorRetryable exPureV2Retryable429 = true ∧
     exPureV2Retryable429.statusCode = JsField.val 429 ∧
     (withRetry (R := Unit) (fun _ => .error (.obj exPureV2Retryable429))
        (.arr [100]) .unspecified 2).2.1 ≠ 1 + 1 ∧
     (withRetry (R := Unit) (fun _ => .error (.obj exPureV2Retryable429))
        (.arr [100]) .unspecified 2).1 ≠ .err (.obj exPureV2Retryable429)) := by
  decide

/-- C2 (amended): for every backoff array of length K with all entries
nonnegative and every operation that always fails with a fixed error that
the retry predicate authorizes (the error is AWS-shaped, carries a nested
metadata object so the status-code lookup does not throw, is classified
retryable-or-throttling, and its status code is admitted by the filter),
withRetry invokes the operation exactly K+1 times and rejects with the very
error of the last attempt, unchanged. -/
theorem C2_retry_count_amended {R : Type} (e : ErrVal) (bk : List Int)
    (sc : StatusCodesArg) (fuel : Nat) (hbk : ∀ b ∈ bk, 0 ≤ b)
    (hfuel : bk.length ≤ fuel) (hsr : awsShouldRetry sc (some e) = .ok true) :
    ∃ ws, withRetry (R := R) (fun _ => .error e) (.arr bk) sc fuel =
      (.err e, bk.length + 1, ws) := by
  refine withRetryEngine_exhaust e (fun _ => .error e)
    (fun attempt e2 => awsBackoffDelay (.arr bk) attempt none (some e2))
    (fun e2 => awsShouldRetry sc (some e2))
    (fun a => rfl) hsr bk.length 1 fuel hfuel ?_ ?_
  · intro i h1 h2
    have hidx : i - 1 < bk.length := by omega
    exact awsBackoffDelay_arr_nonneg bk i (bk.get ⟨i - 1, hidx⟩) none (some e)
      (by simp [List.getElem?_eq_getElem hidx]) (hbk _ (bk.get_mem _ _))
  · left
    exact awsBackoffDelay_arr_none bk (1 + bk.length) none (some e)
      (List.getElem?_eq_none (by omega))

theorem C2_retry_count_amended_witness :
    ((∀ b ∈ ([100, 200] : List Int), 0 ≤ b) ∧
     ([100, 200] : List Int).length ≤ 2 ∧
     awsShouldRetry .unspecified (some (.obj exThrottling429)) = .ok true) ∧
    ∃ ws, withRetry (R := Unit) (fun _ => .error (.obj exThrottling429))
        (.arr [100, 200]) .unspecified 2 =
      (.err (.obj exThrottling429), ([100, 200] : List Int).length + 1, ws) :=
  ⟨⟨by decide, by decide, by decide⟩,
   C2_retry_count_amended (R := Unit) (.obj exThrottling429) [100, 200] .unspecified 2
     (by decide) (by decide) (by decide)⟩

/-- C3 counterexample: the claim as stated is false.  First input: a
retryable throttling error with status 429 admitted by the default filter
satisfies both (a) and (b), yet with the empty backoff array no retry
happens (the iff omits the schedule).  Second input: a pure Shape A error
with status code 400 under the default filter is invoked once but the
propagated outcome is the TypeError escaping the status-code lookup, not
the input error. -/
theorem C3_counterexample :
    ((awsErrorRetryable exThrottling429
        || isPossibleAwsThrottlingError (.obj exThrottling429)) = true ∧
     awsErrorStatusCode (.obj exThrottling429) = .ok (some 429) ∧
     ([some 429] : List (Option Int)).contains (some 429) = true ∧
     (withRetry (R := Unit) (fun _ => .error (.obj exThrottling429))
        (.arr []) .unspecified 2).2.1 = 1) ∧
    (awsErrorRetryable exPureV2Status400 = true ∧
     exPureV2Status400.statusCode = JsField.val 400 ∧
     (withRetry (R := Unit) (fun _ => .error (.obj exPureV2Status400))
        (.arr [100]) .unspecified 2).1 ≠ .err (.obj exPureV2Status400)) := by
  decide

/-- C3 (amended): after a failed attempt a retry happens if and only if
(a) the error is AWS-shaped and classified retryable-or-throttling, (b) the
status-code filter admits its status code (an omitted statusCodes argument
behaves as the set containing only 429, an explicit empty array never
admits, an explicit null disables the status-code test), (c) the
status-code lookup does not throw, and (d) the backoff array yields a
nonnegative delay for the attempt.  In particular an error carrying a
nested metadata object with status code 400 under the default filter causes
exactly one invocation and the input error propagates unchanged. -/
theorem C3_retry_decision_amended {R : Type} (e : ErrVal) (bk : List Int)
    (sc : StatusCodesArg) (fuel : Nat) (o : AwsErrorObj) (m : JsMeta)
    (bo : Backoff R) (fuel2 : Nat) (hfuel : 1 ≤ fuel)
    (hmeta : o.metadata = JsField.val m) (hst : m.httpStatusCode = JsField.val 400) :
    (2 ≤ (withRetry (R := R) (fun _ => .error e) (.arr bk) sc fuel).2.1 ↔
      ((isPossibleAwsError e = true ∧
        ∃ s, awsErrorStatusCode e = .ok s ∧
          ((match e with
            | .obj o2 => awsErrorRetryable o2
            | .prim => false) || isPossibleAwsThrottlingError e) = true ∧
          (match resolveStatusCodes sc with
           | none => True
           | some codes => codes.contains s = true)) ∧
       ∃ b, bk[0]? = some b ∧ 0 ≤ b)) ∧
    (withRetry (R := R) (fun _ => .error (.obj o)) bo .unspecified fuel2).1 =
        .err (.obj o) ∧
    (withRetry (R := R) (fun _ => .error (.obj o)) bo .unspecified fuel2).2.1 = 1 := by
  refine ⟨?_, ?_⟩
  · have h1 := withRetryEngine_first (R := R) e (fun _ => .error e)
      (fun attempt e2 => awsBackoffDelay (R := R) (.arr bk) attempt none (some e2))
      (fun e2 => awsShouldRetry sc (some e2)) fuel hfuel rfl
    refine Iff.trans h1 ?_
    exact and_congr (awsShouldRetry_ok_true_iff sc e)
      (awsBackoffDelay_arr_iff bk 1 none (some e))
  · have hsr0 := awsShouldRetry_unspecified_400 o m hmeta hst
    have h2 : withRetry (R := R) (fun _ => .error (.obj o)) bo .unspecified fuel2 =
        (.err (.obj o), 1, []) := by
      unfold withRetry
      exact withRetryEngine_noRetry (.obj o) (fun _ => .error (.obj o))
        (fun attempt e2 => awsBackoffDelay bo attempt none (some e2))
        (fun e2 => awsShouldRetry .unspecified (some e2)) fuel2 rfl hsr0
    exact ⟨by rw [h2], by rw [h2]⟩

theorem C3_retry_decision_amended_witness :
    (1 ≤ 1 ∧ exThrottling400.metadata =
        JsField.val { httpStatusCode := JsField.val 400 } ∧
     JsMeta.httpStatusCode { httpStatusCode := JsField.val 400 } = JsField.val 400) ∧
    ((2 ≤ (withRetry (R := Unit) (fun _ => .error (.obj exThrottling429))
        (.arr [500]) .unspecified 1).2.1 ↔
      ((isPossibleAwsError (.obj exThrottling429) = true ∧
        ∃ s, awsErrorStatusCode (.obj exThrottling429) = .ok s ∧
          ((match (.obj exThrottling429 : ErrVal) with
            | .obj o2 => awsErrorRetryable o2
            | .prim => false)
             || isPossibleAwsThrottlingError (.obj exThrottling429)) = true ∧
          (match resolveStatusCodes .unspecified with
           | none => True
           | some codes => codes.contains s = true)) ∧
       ∃ b, ([500] : List Int)[0]? = some b ∧ 0 ≤ b)) ∧
     (withRetry (R := Unit) (fun _ => .error (.obj exThrottling400))
        (Backoff.arr [500]) .unspecified 3).1 = .err (.obj exThrottling400) ∧
     (withRetry (R := Unit) (fun _ => .error (.obj exThrottling400))
        (Backoff.arr [500]) .unspecified 3).2.1 = 1) :=
  ⟨⟨by decide, by decide, by decide⟩,
   C3_retry_decision_amended (R := Unit) (.obj exThrottling429) [500] .unspecified 1
     exThrottling400 { httpStatusCode := JsField.val 400 } (Backoff.arr [500]) 3
     (by decide) (by decide) (by decide)⟩

/-- C4: when withRetry authorizes a retry and the error is a Shape A error
carrying a server-advised delay of `d` seconds while the backoff array
yields `b ≥ 0` milliseconds for the first attempt, the wait before the next
attempt equals `max b (d * 1000)` milliseconds — the server-advised delay
wins exactly when `d * 1000 > b` and never shortens a longer
schedule-computed delay; and when the schedule yields no value or a
negative value, no retry happens regardless of the server-advised delay
(one invocation, the error propagated unchanged). -/
theorem C4_server_advised_delay {R : Type} (o : AwsErrorObj) (d : Int)
    (bk : List Int) (b : Int) (sc : StatusCodesArg) (fuel : Nat)
    (hv2 : isPossibleAwsV2Error (.obj o) = true)
    (hdelay : o.retryDelay = JsField.val d)
    (hsr : awsShouldRetry sc (some (.obj o)) = .ok true)
    (hfuel : 1 ≤ fuel) :
    (bk[0]? = some b → 0 ≤ b →
      (withRetry (R := R) (fun _ => .error (.obj o)) (.arr bk) sc fuel).2.2.head? =
        some (max b (d * 1000))) ∧
    (bk[0]? = none →
      withRetry (R := R) (fun _ => .error (.obj o)) (.arr bk) sc fuel =
        (.err (.obj o), 1, [])) ∧
    (∀ b2, bk[0]? = some b2 → b2 < 0 →
      withRetry (R := R) (fun _ => .error (.obj o)) (.arr bk) sc fuel =
        (.err (.obj o), 1, [])) := by
  have hsd : awsRetryDelaySec (some (.obj o)) = o.retryDelay.get := by
    simp [awsRetryDelaySec, hv2]
  refine ⟨?_, ?_, ?_⟩
  · intro hb hbn
    have hdel : awsBackoffDelay (R := R) (.arr bk) 1 none (some (.obj o)) =
        some (max b (d * 1000)) := by
      have hb2 : bk[1 - 1]? = some b := hb
      simp only [awsBackoffDelay, hb2, hsd, hdelay, JsField.get]
      rw [if_neg (by omega)]
      rcases le_or_lt (d * 1000) b with h | h
      · rw [if_neg (by omega), max_eq_left h]
      · rw [if_pos h, max_eq_right (le_of_lt h)]
    unfold withRetry
    exact withRetryEngine_firstWait (.obj o) (fun _ => .error (.obj o))
      (fun attempt e2 => awsBackoffDelay (.arr bk) attempt none (some e2))
      (fun e2 => awsShouldRetry sc (some e2)) fuel hfuel rfl hsr
      (max b (d * 1000)) hdel (le_trans hbn (le_max_left _ _))
  · intro hb
    unfold withRetry
    exact withRetryEngine_stopDelay (.obj o) (fun _ => .error (.obj o))
      (fun attempt e2 => awsBackoffDelay (.arr bk) attempt none (some e2))
      (fun e2 => awsShouldRetry sc (some e2)) fuel rfl hsr
      (Or.inl (awsBackoffDelay_arr_none bk 1 none (some (.obj o)) hb))
  · intro b2 hb hneg
    unfold withRetry
    exact withRetryEngine_stopDelay (.obj o) (fun _ => .error (.obj o))
      (fun attempt e2 => awsBackoffDelay (.arr bk) attempt none (some e2))
      (fun e2 => awsShouldRetry sc (some e2)) fuel rfl hsr
      (Or.inr ⟨b2, awsBackoffDelay_arr_neg bk 1 b2 none (some (.obj o)) hb hneg, hneg⟩)

theorem C4_server_advised_delay_witness :
    (isPossibleAwsV2Error (.obj exDualShape429) = true ∧
     exDualShape429.retryDelay = JsField.val 2 ∧
     awsShouldRetry .unspecified (some (.obj exDualShape429)) = .ok true ∧
     ([100] : List Int)[0]? = some 100 ∧ (0 : Int) ≤ 100) ∧
    (withRetry (R := Unit) (fun _ => .error (.obj exDualShape429))
        (.arr [100]) .unspecified 1).2.2.head? = some (max 100 (2 * 1000)) :=
  ⟨⟨by decide, by decide, by decide, by decide, by decide⟩,
   (C4_server_advised_delay (R := Unit) exDualShape429 2 [100] 100 .unspecified 1
      (by decide) (by decide) (by decide) (by decide)).1 (by decide) (by decide)⟩

/-- C5: the status-code accessor is not total — applied to a pure Shape A
error (recognized as Shape A and not Shape B, with a direct statusCode of
400 and no nested metadata object) it throws a TypeError while reading
`httpStatusCode` of the undefined `$metadata`, instead of returning the
direct status code as the specification requires. -/
theorem C5_statusCode_throws_on_pure_shapeA :
    isPossibleAwsV2Error (.obj exPureV2Status400) = true ∧
    isPossibleAwsV3Error (.obj exPureV2Status400) = false ∧
    exPureV2Status400.statusCode = JsField.val 400 ∧
    awsErrorStatusCode (.obj exPureV2Status400) = .error () := by
  decide

/-- C7: every error object carrying a nested metadata object and a message
field whose name equals the canonical throttling-exception name classifies
as a throttling error, is classified retryable-or-throttling by the retry
decision, and (with status-code filtering disabled) the retry predicate
authorizes a retry — all regardless of the value or absence of its status
code fields. -/
theorem C7_throttling_classification (o : AwsErrorObj) (m : JsMeta)
    (hmeta : o.metadata = JsField.val m) (hmsg : o.message.present = true)
    (hname : o.name = JsField.val "ThrottlingException") :
    isPossibleAwsThrottlingError (.obj o) = true ∧
    (awsErrorRetryable o || isPossibleAwsThrottlingError (.obj o)) = true ∧
    awsShouldRetry .nullArg (some (.obj o)) = .ok true := by
  have hV3 : isPossibleAwsV3Error (.obj o) = true := by
    show (o.metadata.present && o.message.present) = true
    rw [hmeta, hmsg]
    rfl
  have hthr : isPossibleAwsThrottlingError (.obj o) = true := by
    simp [isPossibleAwsThrottlingError, hV3, hname, JsField.get]
  have hA : isPossibleAwsError (.obj o) = true := by
    simp [isPossibleAwsError, hV3]
  have hS : awsErrorStatusCode (.obj o) =
      .ok (match m.httpStatusCode.get with
           | some n => some n
           | none => o.statusCode.get) := by
    simp [awsErrorStatusCode, hmeta]
  exact ⟨hthr, by simp [hthr], by
    simp [awsShouldRetry, hA, hS, resolveStatusCodes, hthr]⟩

theorem C7_throttling_classification_witness :
    (exThrottling400.metadata = JsField.val { httpStatusCode := JsField.val 400 } ∧
     exThrottling400.message.present = true ∧
     exThrottling400.name = JsField.val "ThrottlingException") ∧
    (isPossibleAwsThrottlingError (.obj exThrottling400) = true ∧
     (awsErrorRetryable exThrottling400
        || isPossibleAwsThrottlingError (.obj exThrottling400)) = true ∧
     awsShouldRetry .nullArg (some (.obj exThrottling400)) = .ok true) :=
  ⟨⟨by decide, by decide, by decide⟩,
   C7_throttling_classification exThrottling400 { httpStatusCode := JsField.val 400 }
     (by decide) (by decide) (by decide)⟩

theorem C1_pagination_completeness_witness :
    ((∀ r ∈ [pgPosition], strTruthy r.position = true) ∧
     strTruthy lastPosition.position = false ∧
     (∀ r ∈ [pgPosition] ++ [lastPosition], r.itemsFieldValue.isVal = true) ∧
     (∀ r ∈ [pgNextToken], strTruthy r.NextToken = true) ∧
     strTruthy lastNextToken.NextToken = false ∧
     (∀ r ∈ [pgNextToken] ++ [lastNextToken], r.itemsFieldValue.isVal = true) ∧
     (∀ r ∈ [pgNextTokenV3], strTruthy r.nextToken = true) ∧
     strTruthy lastNextTokenV3.nextToken = false ∧
     (∀ r ∈ [pgNextTokenV3] ++ [lastNextTokenV3], r.itemsFieldValue.isVal = true) ∧
     (∀ r ∈ [pgMarker], strTruthy r.NextMarker = true) ∧
     strTruthy lastMarker.NextMarker = false ∧
     (∀ r ∈ [pgMarker] ++ [lastMarker], r.itemsFieldValue.isVal = true) ∧
     (∀ r ∈ [pgContinuationToken], strTruthy r.NextContinuationToken = true) ∧
     strTruthy lastContinuationToken.NextContinuationToken = false ∧
     (∀ r ∈ [pgContinuationToken] ++ [lastContinuationToken], r.itemsFieldValue.isVal = true) ∧
     (∀ r ∈ [pgExclusiveStartKey], strTruthy r.LastEvaluatedKey = true) ∧
     strTruthy lastExclusiveStartKey.LastEvaluatedKey = false ∧
     (∀ r ∈ [pgExclusiveStartKey] ++ [lastExclusiveStartKey], r.itemsFieldValue.isVal = true) ∧
     (∀ r ∈ [pgGeneric], (shouldFetchOk none r && strTruthy r.paginationFieldValue) = true) ∧
     (shouldFetchOk none lastGeneric && strTruthy lastGeneric.paginationFieldValue) = false ∧
     (∀ r ∈ [pgGeneric] ++ [lastGeneric], r.itemsFieldValue.isVal = true)) ∧
    (((fetchAllByPosition ([pgPosition] ++ [lastPosition]) none).1 =
       (([pgPosition] ++ [lastPosition]).map fun r => jsItems r.itemsFieldValue).flatten ∧
     (fetchAllByPosition ([pgPosition] ++ [lastPosition]) none).1.length =
       (([pgPosition] ++ [lastPosition]).map fun r => (jsItems r.itemsFieldValue).length).sum) ∧
    ((fetchAllByNextToken ([pgNextToken] ++ [lastNextToken]) none).1 =
       (([pgNextToken] ++ [lastNextToken]).map fun r => jsItems r.itemsFieldValue).flatten ∧
     (fetchAllByNextToken ([pgNextToken] ++ [lastNextToken]) none).1.length =
       (([pgNextToken] ++ [lastNextToken]).map fun r => (jsItems r.itemsFieldValue).length).sum) ∧
    ((fetchAllByNextTokenV3 ([pgNextTokenV3] ++ [lastNextTokenV3]) none).1 =
       (([pgNextTokenV3] ++ [lastNextTokenV3]).map fun r => jsItems r.itemsFieldValue).flatten ∧
     (fetchAllByNextTokenV3 ([pgNextTokenV3] ++ [lastNextTokenV3]) none).1.length =
       (([pgNextTokenV3] ++ [lastNextTokenV3]).map fun r => (jsItems r.itemsFieldValue).length).sum) ∧
    ((fetchAllByMarker ([pgMarker] ++ [lastMarker]) none).1 =
       (([pgMarker] ++ [lastMarker]).map fun r => jsItems r.itemsFieldValue).flatten ∧
     (fetchAllByMarker ([pgMarker] ++ [lastMarker]) none).1.length =
       (([pgMarker] ++ [lastMarker]).map fun r => (jsItems r.itemsFieldValue).length).sum) ∧
    ((fetchAllByContinuationToken ([pgContinuationToken] ++ [lastContinuationToken]) none).1 =
       (([pgContinuationToken] ++ [lastContinuationToken]).map fun r => jsItems r.itemsFieldValue).flatten ∧
     (fetchAllByContinuationToken ([pgContinuationToken] ++ [lastContinuationToken]) none).1.length =
       (([pgContinuationToken] ++ [lastContinuationToken]).map fun r => (jsItems r.itemsFieldValue).length).sum) ∧
    ((fetchAllByExclusiveStartKey ([pgExclusiveStartKey] ++ [lastExclusiveStartKey]) none).1 =
       (([pgExclusiveStartKey] ++ [lastExclusiveStartKey]).map fun r => jsItems r.itemsFieldValue).flatten ∧
     (fetchAllByExclusiveStartKey ([pgExclusiveStartKey] ++ [lastExclusiveStartKey]) none).1.length =
       (([pgExclusiveStartKey] ++ [lastExclusiveStartKey]).map fun r => (jsItems r.itemsFieldValue).length).sum) ∧
    ((fetchAllWithPagination ([pgGeneric] ++ [lastGeneric]) none none).1 =
       (([pgGeneric] ++ [lastGeneric]).map fun r => jsItems r.itemsFieldValue).flatten ∧
     (fetchAllWithPagination ([pgGeneric] ++ [lastGeneric]) none none).1.length =
       (([pgGeneric] ++ [lastGeneric]).map fun r => (jsItems r.itemsFieldValue).length).sum)) :=
  ⟨by decide,
   C1_pagination_completeness [pgPosition] lastPosition [pgNextToken] lastNextToken [pgNextTokenV3] lastNextTokenV3 [pgMarker] lastMarker [pgContinuationToken] lastContinuationToken [pgExclusiveStartKey] lastExclusiveStartKey [pgGeneric] lastGeneric none
     (by decide) (by decide) (by decide) (by decide) (by decide) (by decide) (by decide) (by decide) (by decide) (by decide) (by decide) (by decide) (by decide) (by decide) (by decide) (by decide) (by decide) (by decide) (by decide) (by decide) (by decide)⟩

theorem C6_termination_on_absent_continuation_witness :
    ((∀ r ∈ [pgPosition], strTruthy r.position = true) ∧
     lastPosition.position = JsField.absent ∧
     (∀ r ∈ [pgNextToken], strTruthy r.NextToken = true) ∧
     lastNextToken.NextToken = JsField.absent ∧
     (∀ r ∈ [pgNextTokenV3], strTruthy r.nextToken = true) ∧
     lastNextTokenV3.nextToken = JsField.absent ∧
     (∀ r ∈ [pgMarker], strTruthy r.NextMarker = true) ∧
     lastMarker.NextMarker = JsField.absent ∧
     (∀ r ∈ [pgContinuationToken], strTruthy r.NextContinuationToken = true) ∧
     lastContinuationToken.NextContinuationToken = JsField.absent ∧
     (∀ r ∈ [pgExclusiveStartKey], strTruthy r.LastEvaluatedKey = true) ∧
     lastExclusiveStartKey.LastEvaluatedKey = JsField.absent ∧
     (∀ r ∈ [pgGeneric], (shouldFetchOk none r && strTruthy r.paginationFieldValue) = true) ∧
     lastGeneric.paginationFieldValue = JsField.absent) ∧
    ((fetchAllByPosition ([pgPosition] ++ lastPosition :: [pgPosition]) none = fetchAllByPosition ([pgPosition] ++ [lastPosition]) none ∧
     (fetchAllByPosition ([pgPosition] ++ lastPosition :: [pgPosition]) none).2 = ([pgPosition] : List (PositionResponse Nat)).length + 1) ∧
    (fetchAllByNextToken ([pgNextToken] ++ lastNextToken :: [pgNextToken]) none = fetchAllByNextToken ([pgNextToken] ++ [lastNextToken]) none ∧
     (fetchAllByNextToken ([pgNextToken] ++ lastNextToken :: [pgNextToken]) none).2 = ([pgNextToken] : List (NextTokenResponse Nat)).length + 1) ∧
    (fetchAllByNextTokenV3 ([pgNextTokenV3] ++ lastNextTokenV3 :: [pgNextTokenV3]) none = fetchAllByNextTokenV3 ([pgNextTokenV3] ++ [lastNextTokenV3]) none ∧
     (fetchAllByNextTokenV3 ([pgNextTokenV3] ++ lastNextTokenV3 :: [pgNextTokenV3]) none).2 = ([pgNextTokenV3] : List (NextTokenV3Response Nat)).length + 1) ∧
    (fetchAllByMarker ([pgMarker] ++ lastMarker :: [pgMarker]) none = fetchAllByMarker ([pgMarker] ++ [lastMarker]) none ∧
     (fetchAllByMarker ([pgMarker] ++ lastMarker :: [pgMarker]) none).2 = ([pgMarker] : List (MarkerResponse Nat)).length + 1) ∧
    (fetchAllByContinuationToken ([pgContinuationToken] ++ lastContinuationToken :: [pgContinuationToken]) none = fetchAllByContinuationToken ([pgContinuationToken] ++ [lastContinuationToken]) none ∧
     (fetchAllByContinuationToken ([pgContinuationToken] ++ lastContinuationToken :: [pgContinuationToken]) none).2 = ([pgContinuationToken] : List (ContinuationTokenResponse Nat)).length + 1) ∧
    (fetchAllByExclusiveStartKey ([pgExclusiveStartKey] ++ lastExclusiveStartKey :: [pgExclusiveStartKey]) none = fetchAllByExclusiveStartKey ([pgExclusiveStartKey] ++ [lastExclusiveStartKey]) none ∧
     (fetchAllByExclusiveStartKey ([pgExclusiveStartKey] ++ lastExclusiveStartKey :: [pgExclusiveStartKey]) none).2 = ([pgExclusiveStartKey] : List (ExclusiveStartKeyResponse Nat)).length + 1) ∧
    (fetchAllWithPagination ([pgGeneric] ++ lastGeneric :: [pgGeneric]) none none = fetchAllWithPagination ([pgGeneric] ++ [lastGeneric]) none none ∧
     (fetchAllWithPagination ([pgGeneric] ++ lastGeneric :: [pgGeneric]) none none).2 = ([pgGeneric] : List (GenericResponse Nat)).length + 1)) :=
  ⟨by decide,
   C6_termination_on_absent_continuation none [pgPosition] lastPosition [pgPosition] [pgNextToken] lastNextToken [pgNextToken] [pgNextTokenV3] lastNextTokenV3 [pgNextTokenV3] [pgMarker] lastMarker [pgMarker] [pgContinuationToken] lastContinuationToken [pgContinuationToken] [pgExclusiveStartKey] lastExclusiveStartKey [pgExclusiveStartKey] [pgGeneric] lastGeneric [pgGeneric] none
     (by decide) (by decide) (by decide) (by decide) (by decide) (by decide) (by decide) (by decide) (by decide) (by decide) (by decide) (by decide) (by decide) (by decide)⟩

theorem C9_missing_items_field_is_empty_witness :
    (noItemsPosition.itemsFieldValue.isVal = false ∧
     noItemsNextToken.itemsFieldValue.isVal = false ∧
     noItemsNextTokenV3.itemsFieldValue.isVal = false ∧
     noItemsMarker.itemsFieldValue.isVal = false ∧
     noItemsContinuationToken.itemsFieldValue.isVal = false ∧
     noItemsExclusiveStartKey.itemsFieldValue.isVal = false ∧
     noItemsGeneric.itemsFieldValue.isVal = false) ∧
    (fetchAllByPosition ([] ++ noItemsPosition :: []) none =
      fetchAllByPosition ([] ++ { noItemsPosition with itemsFieldValue := JsField.val [] } :: []) none ∧
    fetchAllByNextToken ([] ++ noItemsNextToken :: []) none =
      fetchAllByNextToken ([] ++ { noItemsNextToken with itemsFieldValue := JsField.val [] } :: []) none ∧
    fetchAllByNextTokenV3 ([] ++ noItemsNextTokenV3 :: []) none =
      fetchAllByNextTokenV3 ([] ++ { noItemsNextTokenV3 with itemsFieldValue := JsField.val [] } :: []) none ∧
    fetchAllByMarker ([] ++ noItemsMarker :: []) none =
      fetchAllByMarker ([] ++ { noItemsMarker with itemsFieldValue := JsField.val [] } :: []) none ∧
    fetchAllByContinuationToken ([] ++ noItemsContinuationToken :: []) none =
      fetchAllByContinuationToken ([] ++ { noItemsContinuationToken with itemsFieldValue := JsField.val [] } :: []) none ∧
    fetchAllByExclusiveStartKey ([] ++ noItemsExclusiveStartKey :: []) none =
      fetchAllByExclusiveStartKey ([] ++ { noItemsExclusiveStartKey with itemsFieldValue := JsField.val [] } :: []) none ∧
    fetchAllWithPagination ([] ++ noItemsGeneric :: []) none none =
      fetchAllWithPagination ([] ++ { noItemsGeneric with itemsFieldValue := JsField.val [] } :: []) none none) :=
  ⟨by decide,
   C9_missing_items_field_is_empty none [] noItemsPosition [] [] noItemsNextToken [] [] noItemsNextTokenV3 [] [] noItemsMarker [] [] noItemsContinuationToken [] [] noItemsExclusiveStartKey [] [] noItemsGeneric []
     (by decide) (by decide) (by decide) (by decide) (by decide) (by decide) (by decide)⟩

theorem C10_falsy_continuation_stops_witness :
    ((∀ r ∈ ([] : List (PositionResponse Nat)), strTruthy r.position = true) ∧
     emptyTokPosition.position = JsField.val "" ∧
     (∀ r ∈ ([] : List (NextTokenResponse Nat)), strTruthy r.NextToken = true) ∧
     emptyTokNextToken.NextToken = JsField.val "" ∧
     (∀ r ∈ ([] : List (NextTokenV3Response Nat)), strTruthy r.nextToken = true) ∧
     emptyTokNextTokenV3.nextToken = JsField.val "" ∧
     (∀ r ∈ ([] : List (MarkerResponse Nat)), strTruthy r.NextMarker = true) ∧
     emptyTokMarker.NextMarker = JsField.val "" ∧
     (∀ r ∈ ([] : List (ContinuationTokenResponse Nat)), strTruthy r.NextContinuationToken = true) ∧
     emptyTokContinuationToken.NextContinuationToken = JsField.val "" ∧
     (∀ r ∈ ([] : List (ExclusiveStartKeyResponse Nat)), strTruthy r.LastEvaluatedKey = true) ∧
     emptyTokExclusiveStartKey.LastEvaluatedKey = JsField.val "" ∧
     (∀ r ∈ ([] : List (GenericResponse Nat)), (shouldFetchOk none r && strTruthy r.paginationFieldValue) = true) ∧
     emptyTokGeneric.paginationFieldValue = JsField.val "") ∧
    ((fetchAllByPosition ([] ++ emptyTokPosition :: [pgPosition]) none =
       fetchAllByPosition ([] ++ { emptyTokPosition with position := JsField.absent } :: [pgPosition]) none ∧
     fetchAllByPosition ([] ++ emptyTokPosition :: [pgPosition]) none = fetchAllByPosition ([] ++ [emptyTokPosition]) none ∧
     (fetchAllByPosition ([] ++ emptyTokPosition :: [pgPosition]) none).2 = ([] : List (PositionResponse Nat)).length + 1) ∧
    (fetchAllByNextToken ([] ++ emptyTokNextToken :: [pgNextToken]) none =
       fetchAllByNextToken ([] ++ { emptyTokNextToken with NextToken := JsField.absent } :: [pgNextToken]) none ∧
     fetchAllByNextToken ([] ++ emptyTokNextToken :: [pgNextToken]) none = fetchAllByNextToken ([] ++ [emptyTokNextToken]) none ∧
     (fetchAllByNextToken ([] ++ emptyTokNextToken :: [pgNextToken]) none).2 = ([] : List (NextTokenResponse Nat)).length + 1) ∧
    (fetchAllByNextTokenV3 ([] ++ emptyTokNextTokenV3 :: [pgNextTokenV3]) none =
       fetchAllByNextTokenV3 ([] ++ { emptyTokNextTokenV3 with nextToken := JsField.absent } :: [pgNextTokenV3]) none ∧
     fetchAllByNextTokenV3 ([] ++ emptyTokNextTokenV3 :: [pgNextTokenV3]) none = fetchAllByNextTokenV3 ([] ++ [emptyTokNextTokenV3]) none ∧
     (fetchAllByNextTokenV3 ([] ++ emptyTokNextTokenV3 :: [pgNextTokenV3]) none).2 = ([] : List (NextTokenV3Response Nat)).length + 1) ∧
    (fetchAllByMarker ([] ++ emptyTokMarker :: [pgMarker]) none =
       fetchAllByMarker ([] ++ { emptyTokMarker with NextMarker := JsField.absent } :: [pgMarker]) none ∧
     fetchAllByMarker ([] ++ emptyTokMarker :: [pgMarker]) none = fetchAllByMarker ([] ++ [emptyTokMarker]) none ∧
     (fetchAllByMarker ([] ++ emptyTokMarker :: [pgMarker]) none).2 = ([] : List (MarkerResponse Nat)).length + 1) ∧
    (fetchAllByContinuationToken ([] ++ emptyTokContinuationToken :: [pgContinuationToken]) none =
       fetchAllByContinuationToken ([] ++ { emptyTokContinuationToken with NextContinuationToken := JsField.absent } :: [pgContinuationToken]) none ∧
     fetchAllByContinuationToken ([] ++ emptyTokContinuationToken :: [pgContinuationToken]) none = fetchAllByContinuationToken ([] ++ [emptyTokContinuationToken]) none ∧
     (fetchAllByContinuationToken ([] ++ emptyTokContinuationToken :: [pgContinuationToken]) none).2 = ([] : List (ContinuationTokenResponse Nat)).length + 1) ∧
    (fetchAllByExclusiveStartKey ([] ++ emptyTokExclusiveStartKey :: [pgExclusiveStartKey]) none =
       fetchAllByExclusiveStartKey ([] ++ { emptyTokExclusiveStartKey with LastEvaluatedKey := JsField.absent } :: [pgExclusiveStartKey]) none ∧
     fetchAllByExclusiveStartKey ([] ++ emptyTokExclusiveStartKey :: [pgExclusiveStartKey]) none = fetchAllByExclusiveStartKey ([] ++ [emptyTokExclusiveStartKey]) none ∧
     (fetchAllByExclusiveStartKey ([] ++ emptyTokExclusiveStartKey :: [pgExclusiveStartKey]) none).2 = ([] : List (ExclusiveStartKeyResponse Nat)).length + 1) ∧
    (fetchAllWithPagination ([] ++ emptyTokGeneric :: [pgGeneric]) none none =
       fetchAllWithPagination ([] ++ { emptyTokGeneric with paginationFieldValue := JsField.absent } :: [pgGeneric]) none none ∧
     fetchAllWithPagination ([] ++ emptyTokGeneric :: [pgGeneric]) none none = fetchAllWithPagination ([] ++ [emptyTokGeneric]) none none ∧
     (fetchAllWithPagination ([] ++ emptyTokGeneric :: [pgGeneric]) none none).2 = ([] : List (GenericResponse Nat)).length + 1)) :=
  ⟨by decide,
   C10_falsy_continuation_stops none [] emptyTokPosition [pgPosition] [] emptyTokNextToken [pgNextToken] [] emptyTokNextTokenV3 [pgNextTokenV3] [] emptyTokMarker [pgMarker] [] emptyTokContinuationToken [pgContinuationToken] [] emptyTokExclusiveStartKey [pgExclusiveStartKey] [] emptyTokGeneric [pgGeneric] none
     (by decide) (by decide) (by decide) (by decide) (by decide) (by decide) (by decide) (by decide) (by decide) (by decide) (by decide) (by decide) (by decide) (by decide)⟩

end Aws
